import Mathlib

/-
Verification of the nexart-ui-renderer preview core: the canvas resolution
scaler, the sandboxed script scope, the budget arbiter and the two animation
loop controllers (the v0.8.x code renderer loop and the v0.9.0 PreviewEngine
loop).  Numbers are modelled as rationals, JS Math.round as floor (x + 1/2),
per-frame callbacks as explicit step functions over a state record, and each
observable action of a tick (scheduling, clearing, drawing, firing the budget
callback) as an event record returned next to the new state.
-/

namespace NexArt

/-- JS Math.round: round half toward positive infinity. -/
def jsRound (q : ℚ) : ℤ := ⌊q + 1/2⌋

/-- CANVAS_LIMITS.MAX_DIMENSION from preview-types: maximum preview canvas dimension. -/
def MAX_DIMENSION : ℚ := 900

/-- ScaledDimensions record produced by the canvas scaler. -/
structure ScaledDimensions where
  renderWidth : ℚ
  renderHeight : ℚ
  originalWidth : ℚ
  originalHeight : ℚ
  scaleFactor : ℚ
  wasScaled : Bool
deriving DecidableEq

/-- calculateScaledDimensions from canvas-scaler: identity geometry when the
larger requested axis is within the cap, otherwise a uniform shrink by
MAX_DIMENSION / max with each axis rounded. -/
def calculateScaledDimensions (width height : ℚ) : ScaledDimensions :=
  let maxDim := max width height
  if maxDim ≤ MAX_DIMENSION then
    { renderWidth := width
      renderHeight := height
      originalWidth := width
      originalHeight := height
      scaleFactor := 1
      wasScaled := false }
  else
    let scaleFactor := MAX_DIMENSION / maxDim
    { renderWidth := (jsRound (width * scaleFactor) : ℚ)
      renderHeight := (jsRound (height * scaleFactor) : ℚ)
      originalWidth := width
      originalHeight := height
      scaleFactor := scaleFactor
      wasScaled := true }

/-- The affine transform left on the 2d context. -/
structure ContextTransform where
  scaleX : ℚ
  scaleY : ℚ
deriving DecidableEq

/-- reapplyContextScale from canvas-scaler: after a buffer resize the context
transform is reset to identity; when the geometry was scaled the factor
renderWidth / originalWidth is applied on both axes. -/
def reapplyContextScale (dimensions : ScaledDimensions) : ContextTransform :=
  if dimensions.wasScaled = false then { scaleX := 1, scaleY := 1 }
  else
    let scaleFactor := dimensions.renderWidth / dimensions.originalWidth
    { scaleX := scaleFactor, scaleY := scaleFactor }

lemma jsRound_intCast (n : ℤ) : jsRound (n : ℚ) = n := by
  unfold jsRound
  rw [Int.floor_eq_iff]
  constructor
  · linarith
  · linarith

lemma jsRound_mono {a b : ℚ} (h : a ≤ b) : jsRound a ≤ jsRound b := by
  unfold jsRound
  exact Int.floor_le_floor (by linarith)

/-- A value held by a runtime member, as far as the claims need to
distinguish them: a JS number, some other member (a drawing primitive,
helper function, string constant, ...), or undefined. -/
inductive JSVal where
  | num (q : ℚ)
  | fn (tag : String)
  | undef
deriving DecidableEq

/-- The PreviewP5Runtime object from preview-runtime: the live, mutable
object the script executes against.  The numeric members the loop
controller mutates are explicit fields; every remaining member (drawing
primitives, math helpers, constants, VAR, seed-derived randomness) is kept
abstract in the statics association list, since no claim distinguishes
them and the loop never touches them. -/
structure RuntimeState where
  width : ℚ
  height : ℚ
  frameCount : ℚ
  t : ℚ
  time : ℚ
  tGlobal : ℚ
  totalFrames : ℚ
  statics : List (String × JSVal)
deriving DecidableEq

/-- createPreviewRuntime: width and height are the values passed by the
caller; frameCount, t, time and tGlobal start at 0, totalFrames at 120. -/
def createPreviewRuntime (width height : ℚ) (statics : List (String × JSVal)) :
    RuntimeState :=
  { width := width, height := height, frameCount := 0, t := 0, time := 0,
    tGlobal := 0, totalFrames := 120, statics := statics }

/-- The liveProps set from code-renderer compileSource: time-varying
properties read live from the runtime by the proxy get trap. -/
def liveProps : List String := ["frameCount", "t", "time", "tGlobal", "totalFrames"]

/-- The static cache built once during compileSource: every runtime member
that is not a live prop is copied by value. -/
def buildStaticCache (runtime : RuntimeState) : List (String × JSVal) :=
  ("width", JSVal.num runtime.width) :: ("height", JSVal.num runtime.height) ::
    runtime.statics.filter (fun kv => decide (kv.1 ∉ liveProps))

/-- Reading a live prop from the runtime object. -/
def liveRead (runtime : RuntimeState) (prop : String) : JSVal :=
  if prop = "frameCount" then JSVal.num runtime.frameCount
  else if prop = "t" then JSVal.num runtime.t
  else if prop = "time" then JSVal.num runtime.time
  else if prop = "tGlobal" then JSVal.num runtime.tGlobal
  else if prop = "totalFrames" then JSVal.num runtime.totalFrames
  else JSVal.undef

/-- The proxy get trap from code-renderer compileSource: live props read
from the live runtime reference, the two registration callbacks next, any
other known key from the static cache, everything else is undefined (the
has trap keeps unknown names falling through to the host instead). -/
def scopeGet (runtimeRef : RuntimeState) (staticCache : List (String × JSVal))
    (prop : String) : JSVal :=
  if prop ∈ liveProps then liveRead runtimeRef prop
  else if prop = "__registerSetup" then JSVal.fn "registerSetup"
  else if prop = "__registerDraw" then JSVal.fn "registerDraw"
  else
    match staticCache.lookup prop with
    | some v => v
    | none => JSVal.undef

/-- The proxy has trap: true exactly for the known keys, so unknown bare
names fall through to the surrounding host environment. -/
def scopeHas (staticCache : List (String × JSVal)) (prop : String) : Bool :=
  decide (prop ∈ liveProps) || (staticCache.lookup prop).isSome ||
    prop == "__registerSetup" || prop == "__registerDraw"

/-- The scope of PreviewEngine.compileSource in preview-engine: the script
is compiled with new Function over Object.keys(runtime) and invoked once
with Object.values(runtime) spread as arguments, so every runtime member —
the time-varying ones included — is bound by value at compile time.  A
setupFn or drawFn registered there closes over these frozen parameters:
the resolution is a pure function of the runtime as it was at compile
time and never consults the live runtime the loop mutates afterwards. -/
def engineCompileScope (runtimeAtCompile : RuntimeState) (prop : String) : JSVal :=
  if prop = "width" then JSVal.num runtimeAtCompile.width
  else if prop = "height" then JSVal.num runtimeAtCompile.height
  else if prop ∈ liveProps then liveRead runtimeAtCompile prop
  else if prop = "__registerSetup" then JSVal.fn "registerSetup"
  else if prop = "__registerDraw" then JSVal.fn "registerDraw"
  else
    match runtimeAtCompile.statics.lookup prop with
    | some v => v
    | none => JSVal.undef

/-- The per-tick runtime timing update shared by both loop controllers:
frameCount is set to the tick number and t, time, tGlobal to
(frameCount mod totalFrames) / totalFrames. -/
def updateRuntimeTiming (runtime : RuntimeState) (frameCount totalFrames : ℕ) :
    RuntimeState :=
  let t : ℚ := ((frameCount % totalFrames : ℕ) : ℚ) / (totalFrames : ℚ)
  { runtime with frameCount := (frameCount : ℚ), t := t, time := t, tGlobal := t }

lemma updateRuntimeTiming_comp (runtime : RuntimeState) (m n totalFrames : ℕ) :
    updateRuntimeTiming (updateRuntimeTiming runtime m totalFrames) n totalFrames
      = updateRuntimeTiming runtime n totalFrames := rfl

/-- A buffer operation performed during a tick of the code-renderer loop. -/
inductive BufOp where
  | clear
  | draw
  | badge
deriving DecidableEq

/-- The local state of a renderCodeModeSystem renderer in loop mode
(drawFn is present, otherwise renderLoop would have fallen back to the
static path before the first tick). -/
structure CRState where
  isRunning : Bool
  isDestroyed : Bool
  frameCount : ℕ
  runtime : RuntimeState
deriving DecidableEq

/-- The observable events of one tick of the code-renderer loop. -/
structure CRTickEvents where
  scheduled : Bool
  ops : List BufOp
  drawErrorCaught : Bool
  runtimeAtDraw : Option RuntimeState
deriving DecidableEq

def defaultCREvents : CRTickEvents :=
  { scheduled := false, ops := [], drawErrorCaught := false, runtimeAtDraw := none }

/-- One tick of the renderLoop in code-renderer: the next frame is
scheduled first; then the liveness check, the frame-counter increment, the
runtime timing update, and a try block holding the transform-ignoring
clear, the drawFn call and the badge.  A throw inside drawFn is caught
after the clear already ran. -/
def crTick (totalFrames : ℕ) (showBadge : Bool) (drawThrows : Bool)
    (s : CRState) : CRState × CRTickEvents :=
  if s.isRunning = false ∨ s.isDestroyed = true then
    (s, { scheduled := true, ops := [], drawErrorCaught := false, runtimeAtDraw := none })
  else
    let fc := s.frameCount + 1
    let runtime := updateRuntimeTiming s.runtime fc totalFrames
    let s1 : CRState := { s with frameCount := fc, runtime := runtime }
    if drawThrows then
      (s1, { scheduled := true, ops := [BufOp.clear], drawErrorCaught := true,
             runtimeAtDraw := some runtime })
    else
      (s1, { scheduled := true,
             ops := [BufOp.clear, BufOp.draw] ++ (if showBadge then [BufOp.badge] else []),
             drawErrorCaught := false, runtimeAtDraw := some runtime })

/-- Iterate crTick over a list of per-tick draw outcomes, collecting the
events of every tick. -/
def crRun (totalFrames : ℕ) (showBadge : Bool) :
    CRState → List Bool → CRState × List CRTickEvents
  | s, [] => (s, [])
  | s, d :: ds =>
    let r := crTick totalFrames showBadge d s
    let r2 := crRun totalFrames showBadge r.1 ds
    (r2.1, r.2 :: r2.2)

/-- The renderer state right after renderLoop compiled the source, ran
setupFn and set isRunning: the runtime carries the original (protocol)
dimensions and the configured totalFrames. -/
def crStart (width height : ℚ) (statics : List (String × JSVal))
    (totalFrames : ℕ) : CRState :=
  { isRunning := true, isDestroyed := false, frameCount := 0,
    runtime := { createPreviewRuntime width height statics with
                  totalFrames := (totalFrames : ℚ) } }

/-- Budget behavior option from preview-types. -/
inductive BudgetBehavior where
  | stop
  | degrade
deriving DecidableEq

/-- Budget exceed reason from preview-types. -/
inductive BudgetExceedReason where
  | frame_limit
  | time_limit
deriving DecidableEq

/-- The PREVIEW_BUDGET constants from preview-types. -/
structure PreviewBudgetConfig where
  MAX_FRAMES : ℕ
  MAX_TOTAL_TIME_MS : ℕ
  DEGRADE_STRIDE : ℕ

def PREVIEW_BUDGET : PreviewBudgetConfig :=
  { MAX_FRAMES := 1800, MAX_TOTAL_TIME_MS := 300000, DEGRADE_STRIDE := 2 }

/-- PreviewEngineConfig, restricted to the members the PreviewEngine loop
and budget arbiter read.  hasOnBudgetExceeded records whether the caller
supplied the callback, hasDrawFn whether the compiled script registered a
draw function. -/
structure EngineConfig where
  width : ℚ
  height : ℚ
  totalFrames : Option ℕ
  budgetBehavior : Option BudgetBehavior
  showOverlay : Option Bool
  maxFrames : Option ℕ
  maxTimeMs : Option ℕ
  hasOnBudgetExceeded : Bool
  hasDrawFn : Bool
deriving DecidableEq

/-- The mutable fields of a PreviewEngine instance the claims are about. -/
structure EngineState where
  running : Bool
  internalFrameCount : ℕ
  currentStride : ℕ
  budgetExceededReason : Option BudgetExceedReason
  overlayShown : Bool
  runtime : RuntimeState
deriving DecidableEq

/-- The observable events of one tick of the PreviewEngine loop.  The
cleared flag records whether a pre-draw buffer clear ran during the tick:
the v0.9.0 scheduleNextFrame callback performs no clear call, so the tick
step never sets it. -/
structure EngineTickEvents where
  scheduled : Bool
  gateCrossed : Bool
  fired : Option BudgetExceedReason
  drew : Bool
  cleared : Bool
  drawErrorCaught : Bool
deriving DecidableEq

def defaultEngineEvents : EngineTickEvents :=
  { scheduled := false, gateCrossed := false, fired := none, drew := false,
    cleared := false, drawErrorCaught := false }

/-- stopLoop: flips the running flag (and cancels the pending registration,
which has no bearing on the event counts below). -/
def stopLoop (s : EngineState) : EngineState := { s with running := false }

/-- showBudgetOverlay: at most one overlay; shown when config.showOverlay
is set, defaulting to whether config.budgetBehavior is literally the
value stop. -/
def showBudgetOverlay (cfg : EngineConfig) (s : EngineState) : EngineState :=
  if s.overlayShown then s
  else
    let defaultShow := decide (cfg.budgetBehavior = some BudgetBehavior.stop)
    if cfg.showOverlay.getD defaultShow then { s with overlayShown := true } else s

/-- handleBudgetExceeded: returns the new state and the reason passed to
the onBudgetExceeded callback when it was invoked on this call.  A second
call is a no-op; behavior stop shows the overlay and halts the loop,
behavior degrade sets the stride to PREVIEW_BUDGET.DEGRADE_STRIDE. -/
def handleBudgetExceeded (cfg : EngineConfig) (s : EngineState)
    (reason : BudgetExceedReason) : EngineState × Option BudgetExceedReason :=
  if s.budgetExceededReason.isSome then (s, none)
  else
    let s1 : EngineState := { s with budgetExceededReason := some reason }
    let fired := if cfg.hasOnBudgetExceeded then some reason else none
    match cfg.budgetBehavior.getD BudgetBehavior.stop with
    | BudgetBehavior.stop => (stopLoop (showBudgetOverlay cfg s1), fired)
    | BudgetBehavior.degrade =>
        ({ s1 with currentStride := PREVIEW_BUDGET.DEGRADE_STRIDE }, fired)

/-- checkBudget: frame ceiling checked before the time ceiling; returns
the new state, whether the budget is still ok, and the callback reason if
the exceeded handler fired on this call. -/
def checkBudget (cfg : EngineConfig) (s : EngineState) (elapsedMs : ℕ) :
    EngineState × Bool × Option BudgetExceedReason :=
  let maxFrames := cfg.maxFrames.getD PREVIEW_BUDGET.MAX_FRAMES
  let maxTimeMs := cfg.maxTimeMs.getD PREVIEW_BUDGET.MAX_TOTAL_TIME_MS
  if maxFrames ≤ s.internalFrameCount then
    let r := handleBudgetExceeded cfg s BudgetExceedReason.frame_limit
    (r.1, false, r.2)
  else if maxTimeMs ≤ elapsedMs then
    let r := handleBudgetExceeded cfg s BudgetExceedReason.time_limit
    (r.1, false, r.2)
  else (s, true, none)

/-- The external inputs of one tick: the wall-clock elapsed time the tick
observes, and whether the script drawFn throws on this tick. -/
structure EngineTickInput where
  elapsedMs : ℕ
  drawThrows : Bool
deriving DecidableEq

/-- The part of the PreviewEngine tick that runs after the liveness check
and the frame-counter increment: the budget gate (returning unless the
behavior is degrade when it fails), the stride gate, then the runtime
timing update and the drawFn call inside a try block.  No buffer clear
appears anywhere in this callback. -/
def engineTickBody (cfg : EngineConfig) (s1 : EngineState) (input : EngineTickInput) :
    EngineState × EngineTickEvents :=
  let cb := checkBudget cfg s1 input.elapsedMs
  let ev := { defaultEngineEvents with
                scheduled := true, gateCrossed := !cb.2.1, fired := cb.2.2 }
  if cb.2.1 = false ∧ cfg.budgetBehavior ≠ some BudgetBehavior.degrade then
    (cb.1, ev)
  else if 1 < cb.1.currentStride ∧ cb.1.internalFrameCount % cb.1.currentStride ≠ 0 then
    (cb.1, ev)
  else
    let rt := updateRuntimeTiming cb.1.runtime cb.1.internalFrameCount
      (cfg.totalFrames.getD 120)
    if cfg.hasDrawFn = true ∧ input.drawThrows = true then
      ({ cb.1 with runtime := rt }, { ev with drawErrorCaught := true })
    else
      ({ cb.1 with runtime := rt }, { ev with drew := cfg.hasDrawFn })

/-- One tick of the PreviewEngine scheduleNextFrame callback.  In source
order: re-register the next tick, return if stopped, increment the frame
counter, then the budget gate, the stride gate and the draw step of the
tick body. -/
def engineTick (cfg : EngineConfig) (s0 : EngineState) (input : EngineTickInput) :
    EngineState × EngineTickEvents :=
  if s0.running = false then (s0, { defaultEngineEvents with scheduled := true })
  else
    engineTickBody cfg { s0 with internalFrameCount := s0.internalFrameCount + 1 } input

/-- Iterate engineTick over a list of per-tick inputs, collecting the
events of every tick. -/
def engineRun (cfg : EngineConfig) :
    EngineState → List EngineTickInput → EngineState × List EngineTickEvents
  | s, [] => (s, [])
  | s, input :: rest =>
    let r := engineTick cfg s input
    let r2 := engineRun cfg r.1 rest
    (r2.1, r.2 :: r2.2)

/-- PreviewEngine construction (initialize): compute the scaled geometry,
then create the runtime against the original semantic dimensions and set
its totalFrames; the loop is not running and the frame counter is 0. -/
def engineInit (cfg : EngineConfig) (statics : List (String × JSVal)) : EngineState :=
  let scaled := calculateScaledDimensions cfg.width cfg.height
  let rt := createPreviewRuntime scaled.originalWidth scaled.originalHeight statics
  { running := false, internalFrameCount := 0, currentStride := 1,
    budgetExceededReason := none, overlayShown := false,
    runtime := { rt with totalFrames := ((cfg.totalFrames.getD 120 : ℕ) : ℚ) } }

/-- startLoop: no-op when already running, otherwise reset the frame
counter, stride, exceeded reason and overlay, run setupFn and schedule the
first tick. -/
def startLoop (s : EngineState) : EngineState :=
  if s.running then s
  else { s with running := true, internalFrameCount := 0, currentStride := 1,
                budgetExceededReason := none, overlayShown := false }

/-- The PreviewRenderResult fields renderStatic fills. -/
structure PreviewRenderResult where
  success : Bool
  framesRendered : ℕ
  terminatedEarly : Bool
deriving DecidableEq

/-- The observable calls a static render performs. -/
structure StaticRenderEvents where
  setupCalls : ℕ
  drawCalls : ℕ
  scheduled : Bool
  cleared : Bool
deriving DecidableEq

/-- PreviewEngine renderStatic: inside a try block the setup function is
invoked when present — drawFn is never called, no tick is scheduled and no
clear is performed; a throw from setupFn yields the early-terminated error
result. -/
def renderStatic (hasSetupFn setupThrows : Bool) (s : EngineState) :
    EngineState × PreviewRenderResult × StaticRenderEvents :=
  if hasSetupFn = true ∧ setupThrows = true then
    (s, { success := false, framesRendered := 0, terminatedEarly := true },
     { setupCalls := 1, drawCalls := 0, scheduled := false, cleared := false })
  else
    (s, { success := true, framesRendered := 1, terminatedEarly := false },
     { setupCalls := if hasSetupFn then 1 else 0, drawCalls := 0,
       scheduled := false, cleared := false })

/-- Number of ticks whose budget callback fired. -/
def countFired (evs : List EngineTickEvents) : ℕ :=
  (evs.filter (fun ev => ev.fired.isSome)).length

/-- Number of ticks on which drawFn ran to completion. -/
def countDrew (evs : List EngineTickEvents) : ℕ :=
  (evs.filter (fun ev => ev.drew)).length

/-- Whether some tick crossed a budget ceiling. -/
def anyCrossed (evs : List EngineTickEvents) : Bool :=
  evs.any (fun ev => ev.gateCrossed)

lemma scaled_axis_le_cap {x m : ℚ} (hx : x ≤ m) (hm : 900 < m) :
    ((jsRound (x * (900 / m)) : ℤ) : ℚ) ≤ 900 := by
  have hmpos : (0:ℚ) < m := by linarith
  have hsf : (0:ℚ) ≤ 900 / m := by positivity
  have h1 : x * (900 / m) ≤ m * (900 / m) := mul_le_mul_of_nonneg_right hx hsf
  have h2 : m * (900 / m) = 900 := by field_simp
  have h3 : jsRound (x * (900 / m)) ≤ jsRound ((900 : ℤ) : ℚ) := by
    apply jsRound_mono
    push_cast
    linarith
  rw [jsRound_intCast] at h3
  exact_mod_cast h3

lemma calc_of_le {w h : ℚ} (hle : max w h ≤ 900) :
    calculateScaledDimensions w h = ⟨w, h, w, h, 1, false⟩ := by
  unfold calculateScaledDimensions MAX_DIMENSION
  rw [if_pos hle]

lemma calc_of_lt {w h : ℚ} (hlt : 900 < max w h) :
    calculateScaledDimensions w h
      = ⟨(jsRound (w * (900 / max w h)) : ℚ), (jsRound (h * (900 / max w h)) : ℚ),
         w, h, 900 / max w h, true⟩ := by
  unfold calculateScaledDimensions MAX_DIMENSION
  rw [if_neg (not_le.mpr hlt)]

lemma calculateScaledDimensions_originalWidth (w h : ℚ) :
    (calculateScaledDimensions w h).originalWidth = w := by
  rcases le_or_lt (max w h) 900 with hle | hlt
  · rw [calc_of_le hle]
  · rw [calc_of_lt hlt]

lemma calculateScaledDimensions_originalHeight (w h : ℚ) :
    (calculateScaledDimensions w h).originalHeight = h := by
  rcases le_or_lt (max w h) 900 with hle | hlt
  · rw [calc_of_le hle]
  · rw [calc_of_lt hlt]

lemma calculateScaledDimensions_wasScaled_iff (w h : ℚ) :
    (calculateScaledDimensions w h).wasScaled = true ↔ 900 < max w h := by
  rcases le_or_lt (max w h) 900 with hle | hlt
  · rw [calc_of_le hle]
    simp only [Bool.false_eq_true, false_iff, not_lt]
    exact hle
  · rw [calc_of_lt hlt]
    simp [hlt]

/-- C4: calculateScaledDimensions is the identity geometry (scaleFactor 1,
wasScaled false) whenever max(w,h) ≤ 900, and otherwise returns
scaleFactor = 900/max(w,h), renderWidth = round(w·scaleFactor),
renderHeight = round(h·scaleFactor), wasScaled = true, with both buffer
dimensions at most 900. -/
theorem C4_scaler_geometry (w h : ℚ) :
    (max w h ≤ 900 →
      (calculateScaledDimensions w h).renderWidth = w
      ∧ (calculateScaledDimensions w h).renderHeight = h
      ∧ (calculateScaledDimensions w h).scaleFactor = 1
      ∧ (calculateScaledDimensions w h).wasScaled = false)
    ∧ (900 < max w h →
      (calculateScaledDimensions w h).scaleFactor = 900 / max w h
      ∧ (calculateScaledDimensions w h).renderWidth
          = (jsRound (w * (900 / max w h)) : ℚ)
      ∧ (calculateScaledDimensions w h).renderHeight
          = (jsRound (h * (900 / max w h)) : ℚ)
      ∧ (calculateScaledDimensions w h).wasScaled = true
      ∧ (calculateScaledDimensions w h).renderWidth ≤ 900
      ∧ (calculateScaledDimensions w h).renderHeight ≤ 900) := by
  constructor
  · intro hle
    rw [calc_of_le hle]
    exact ⟨rfl, rfl, rfl, rfl⟩
  · intro hlt
    rw [calc_of_lt hlt]
    exact ⟨rfl, rfl, rfl, rfl,
      scaled_axis_le_cap (le_max_left w h) hlt,
      scaled_axis_le_cap (le_max_right w h) hlt⟩

/-- Witness for C4 at the spec scenario 1950x2400 (cap crossed, buffer
dims bounded by 900) and at 800x600 (identity branch). -/
theorem C4_scaler_geometry_witness :
    ((900:ℚ) < max 1950 2400
      ∧ (calculateScaledDimensions 1950 2400).renderWidth ≤ 900
      ∧ (calculateScaledDimensions 1950 2400).wasScaled = true)
    ∧ (max (800:ℚ) 600 ≤ 900
      ∧ (calculateScaledDimensions 800 600).scaleFactor = 1) := by
  have h1 : (900:ℚ) < max 1950 2400 := by norm_num
  have h2 := (C4_scaler_geometry 1950 2400).2 h1
  have h3 : max (800:ℚ) 600 ≤ 900 := by norm_num
  have h4 := (C4_scaler_geometry 800 600).1 h3
  exact ⟨⟨h1, h2.2.2.2.2.1, h2.2.2.2.1⟩, h3, h4.2.2.1⟩

lemma calculateScaledDimensions_at_1950_2400_scaleFactor :
    (calculateScaledDimensions 1950 2400).scaleFactor = 3/8 := by
  rw [calc_of_lt (by norm_num)]
  norm_num

lemma calculateScaledDimensions_at_1950_2400_renderWidth :
    (calculateScaledDimensions 1950 2400).renderWidth = 731 := by
  rw [calc_of_lt (by norm_num)]
  norm_num [jsRound]

/-- C8 counterexample: for the geometry of the 1950x2400 request the stored
scaleFactor is 900/2400 = 3/8, while renderWidth / originalWidth is
731/1950, so the stored factor does not equal bufferWidth/semanticWidth. -/
theorem C8_counterexample :
    (calculateScaledDimensions 1950 2400).scaleFactor
      ≠ (calculateScaledDimensions 1950 2400).renderWidth
          / (calculateScaledDimensions 1950 2400).originalWidth := by
  rw [calculateScaledDimensions_at_1950_2400_scaleFactor,
    calculateScaledDimensions_at_1950_2400_renderWidth,
    calculateScaledDimensions_originalWidth]
  norm_num

/-- C8 amended: the stored scaleFactor is 900/max(w,h) when scaled (1
otherwise) and the buffer width is the rounding of originalWidth times
that factor — so the stored factor equals bufferWidth/semanticWidth only
up to rounding — while the transform reapplied to the context after a
resize uses the single factor renderWidth/originalWidth on both axes. -/
theorem C8_scaleFactor_amended (w h : ℚ) :
    ((calculateScaledDimensions w h).wasScaled = false →
      (calculateScaledDimensions w h).scaleFactor = 1
      ∧ (calculateScaledDimensions w h).renderWidth
          = (calculateScaledDimensions w h).originalWidth)
    ∧ ((calculateScaledDimensions w h).wasScaled = true →
      (calculateScaledDimensions w h).scaleFactor = 900 / max w h
      ∧ (calculateScaledDimensions w h).renderWidth
          = (jsRound ((calculateScaledDimensions w h).originalWidth
              * (calculateScaledDimensions w h).scaleFactor) : ℚ))
    ∧ (reapplyContextScale (calculateScaledDimensions w h)).scaleX
        = (reapplyContextScale (calculateScaledDimensions w h)).scaleY
    ∧ ((calculateScaledDimensions w h).wasScaled = true →
      (reapplyContextScale (calculateScaledDimensions w h)).scaleX
        = (calculateScaledDimensions w h).renderWidth
            / (calculateScaledDimensions w h).originalWidth) := by
  rcases le_or_lt (max w h) 900 with hle | hlt
  · rw [calc_of_le hle]
    simp [reapplyContextScale]
  · rw [calc_of_lt hlt]
    simp [reapplyContextScale]

/-- Witness for C8 amended at 1950x2400: the reapplied transform is
uniform and equals renderWidth/originalWidth. -/
theorem C8_scaleFactor_amended_witness :
    (calculateScaledDimensions 1950 2400).wasScaled = true
    ∧ (reapplyContextScale (calculateScaledDimensions 1950 2400)).scaleX
        = (reapplyContextScale (calculateScaledDimensions 1950 2400)).scaleY
    ∧ (reapplyContextScale (calculateScaledDimensions 1950 2400)).scaleX
        = (calculateScaledDimensions 1950 2400).renderWidth
            / (calculateScaledDimensions 1950 2400).originalWidth := by
  have hw : (calculateScaledDimensions 1950 2400).wasScaled = true := by
    rw [calculateScaledDimensions_wasScaled_iff]
    norm_num
  exact ⟨hw, (C8_scaleFactor_amended 1950 2400).2.2.1,
    (C8_scaleFactor_amended 1950 2400).2.2.2 hw⟩

@[simp] lemma updateRuntimeTiming_width (rt : RuntimeState) (n t : ℕ) :
    (updateRuntimeTiming rt n t).width = rt.width := rfl

@[simp] lemma updateRuntimeTiming_height (rt : RuntimeState) (n t : ℕ) :
    (updateRuntimeTiming rt n t).height = rt.height := rfl

@[simp] lemma updateRuntimeTiming_statics (rt : RuntimeState) (n t : ℕ) :
    (updateRuntimeTiming rt n t).statics = rt.statics := rfl

@[simp] lemma updateRuntimeTiming_frameCount (rt : RuntimeState) (n t : ℕ) :
    (updateRuntimeTiming rt n t).frameCount = (n : ℚ) := rfl

@[simp] lemma stopLoop_runtime (s : EngineState) : (stopLoop s).runtime = s.runtime := rfl

@[simp] lemma stopLoop_frames (s : EngineState) :
    (stopLoop s).internalFrameCount = s.internalFrameCount := rfl

@[simp] lemma stopLoop_stride (s : EngineState) :
    (stopLoop s).currentStride = s.currentStride := rfl

@[simp] lemma stopLoop_reason (s : EngineState) :
    (stopLoop s).budgetExceededReason = s.budgetExceededReason := rfl

@[simp] lemma stopLoop_running (s : EngineState) : (stopLoop s).running = false := rfl

@[simp] lemma showBudgetOverlay_runtime (cfg : EngineConfig) (s : EngineState) :
    (showBudgetOverlay cfg s).runtime = s.runtime := by
  simp only [showBudgetOverlay]
  split_ifs <;> rfl

@[simp] lemma showBudgetOverlay_frames (cfg : EngineConfig) (s : EngineState) :
    (showBudgetOverlay cfg s).internalFrameCount = s.internalFrameCount := by
  simp only [showBudgetOverlay]
  split_ifs <;> rfl

@[simp] lemma showBudgetOverlay_stride (cfg : EngineConfig) (s : EngineState) :
    (showBudgetOverlay cfg s).currentStride = s.currentStride := by
  simp only [showBudgetOverlay]
  split_ifs <;> rfl

@[simp] lemma showBudgetOverlay_reason (cfg : EngineConfig) (s : EngineState) :
    (showBudgetOverlay cfg s).budgetExceededReason = s.budgetExceededReason := by
  simp only [showBudgetOverlay]
  split_ifs <;> rfl

@[simp] lemma showBudgetOverlay_running (cfg : EngineConfig) (s : EngineState) :
    (showBudgetOverlay cfg s).running = s.running := by
  simp only [showBudgetOverlay]
  split_ifs <;> rfl

/-- handleBudgetExceeded is a no-op once the reason is recorded. -/
lemma hbe_of_some (cfg : EngineConfig) (s : EngineState) (r : BudgetExceedReason)
    (h : s.budgetExceededReason.isSome = true) :
    handleBudgetExceeded cfg s r = (s, none) := by
  simp only [handleBudgetExceeded]
  rw [if_pos h]

/-- handleBudgetExceeded on the first crossing in degrade behavior:
records the reason, sets the stride, fires the callback if present. -/
lemma hbe_of_none_degrade (cfg : EngineConfig) (s : EngineState) (r : BudgetExceedReason)
    (h : s.budgetExceededReason = none)
    (hb : cfg.budgetBehavior = some BudgetBehavior.degrade) :
    handleBudgetExceeded cfg s r
      = ({ s with budgetExceededReason := some r,
                  currentStride := PREVIEW_BUDGET.DEGRADE_STRIDE },
         if cfg.hasOnBudgetExceeded then some r else none) := by
  simp only [handleBudgetExceeded]
  rw [if_neg (by simp [h])]
  rw [hb]
  rfl

/-- handleBudgetExceeded on the first crossing in stop behavior: records
the reason, shows the overlay, halts the loop, fires the callback if
present. -/
lemma hbe_of_none_stop (cfg : EngineConfig) (s : EngineState) (r : BudgetExceedReason)
    (h : s.budgetExceededReason = none)
    (hb : cfg.budgetBehavior.getD BudgetBehavior.stop = BudgetBehavior.stop) :
    handleBudgetExceeded cfg s r
      = (stopLoop (showBudgetOverlay cfg { s with budgetExceededReason := some r }),
         if cfg.hasOnBudgetExceeded then some r else none) := by
  simp only [handleBudgetExceeded]
  rw [if_neg (by simp [h])]
  rw [hb]

lemma hbe_runtime (cfg : EngineConfig) (s : EngineState) (r : BudgetExceedReason) :
    (handleBudgetExceeded cfg s r).1.runtime = s.runtime := by
  rcases ho : s.budgetExceededReason with _ | r0
  · rcases hbv : cfg.budgetBehavior.getD BudgetBehavior.stop with _ | _
    · rw [hbe_of_none_stop cfg s r ho hbv]
      simp
    · have hb : cfg.budgetBehavior = some BudgetBehavior.degrade := by
        rcases hx : cfg.budgetBehavior with _ | b
        · rw [hx] at hbv
          simp [Option.getD] at hbv
        · rcases b
          · rw [hx] at hbv
            simp [Option.getD] at hbv
          · rfl
      rw [hbe_of_none_degrade cfg s r ho hb]
  · rw [hbe_of_some cfg s r (by rw [ho]; rfl)]

lemma hbe_frames (cfg : EngineConfig) (s : EngineState) (r : BudgetExceedReason) :
    (handleBudgetExceeded cfg s r).1.internalFrameCount = s.internalFrameCount := by
  rcases ho : s.budgetExceededReason with _ | r0
  · rcases hbv : cfg.budgetBehavior.getD BudgetBehavior.stop with _ | _
    · rw [hbe_of_none_stop cfg s r ho hbv]
      simp
    · have hb : cfg.budgetBehavior = some BudgetBehavior.degrade := by
        rcases hx : cfg.budgetBehavior with _ | b
        · rw [hx] at hbv
          simp [Option.getD] at hbv
        · rcases b
          · rw [hx] at hbv
            simp [Option.getD] at hbv
          · rfl
      rw [hbe_of_none_degrade cfg s r ho hb]
  · rw [hbe_of_some cfg s r (by rw [ho]; rfl)]

/-- checkBudget when neither ceiling is reached. -/
lemma cb_ok (cfg : EngineConfig) (s : EngineState) (e : ℕ)
    (hf : s.internalFrameCount < cfg.maxFrames.getD PREVIEW_BUDGET.MAX_FRAMES)
    (ht : e < cfg.maxTimeMs.getD PREVIEW_BUDGET.MAX_TOTAL_TIME_MS) :
    checkBudget cfg s e = (s, true, none) := by
  simp only [checkBudget]
  rw [if_neg (by omega), if_neg (by omega)]

/-- checkBudget at the frame ceiling (checked before the time ceiling). -/
lemma cb_frame (cfg : EngineConfig) (s : EngineState) (e : ℕ)
    (hf : cfg.maxFrames.getD PREVIEW_BUDGET.MAX_FRAMES ≤ s.internalFrameCount) :
    checkBudget cfg s e
      = ((handleBudgetExceeded cfg s BudgetExceedReason.frame_limit).1, false,
         (handleBudgetExceeded cfg s BudgetExceedReason.frame_limit).2) := by
  simp only [checkBudget]
  rw [if_pos hf]

/-- checkBudget at the time ceiling only. -/
lemma cb_time (cfg : EngineConfig) (s : EngineState) (e : ℕ)
    (hf : s.internalFrameCount < cfg.maxFrames.getD PREVIEW_BUDGET.MAX_FRAMES)
    (ht : cfg.maxTimeMs.getD PREVIEW_BUDGET.MAX_TOTAL_TIME_MS ≤ e) :
    checkBudget cfg s e
      = ((handleBudgetExceeded cfg s BudgetExceedReason.time_limit).1, false,
         (handleBudgetExceeded cfg s BudgetExceedReason.time_limit).2) := by
  simp only [checkBudget]
  rw [if_neg (by omega), if_pos ht]

lemma cb_runtime (cfg : EngineConfig) (s : EngineState) (e : ℕ) :
    (checkBudget cfg s e).1.runtime = s.runtime := by
  simp only [checkBudget]
  split_ifs <;> simp [hbe_runtime]

lemma cb_frames_preserved (cfg : EngineConfig) (s : EngineState) (e : ℕ) :
    (checkBudget cfg s e).1.internalFrameCount = s.internalFrameCount := by
  simp only [checkBudget]
  split_ifs <;> simp [hbe_frames]

lemma engineTick_runtime_width (cfg : EngineConfig) (s : EngineState)
    (input : EngineTickInput) :
    (engineTick cfg s input).1.runtime.width = s.runtime.width := by
  simp only [engineTick, engineTickBody]
  split_ifs <;> simp [cb_runtime]

lemma engineTick_runtime_height (cfg : EngineConfig) (s : EngineState)
    (input : EngineTickInput) :
    (engineTick cfg s input).1.runtime.height = s.runtime.height := by
  simp only [engineTick, engineTickBody]
  split_ifs <;> simp [cb_runtime]

lemma engineInit_runtime_width (cfg : EngineConfig) (statics : List (String × JSVal)) :
    (engineInit cfg statics).runtime.width = cfg.width := by
  unfold engineInit createPreviewRuntime
  simp [calculateScaledDimensions_originalWidth]

lemma engineInit_runtime_height (cfg : EngineConfig) (statics : List (String × JSVal)) :
    (engineInit cfg statics).runtime.height = cfg.height := by
  unfold engineInit createPreviewRuntime
  simp [calculateScaledDimensions_originalHeight]

lemma scopeGet_cache_width (rt rt0 : RuntimeState) :
    scopeGet rt (buildStaticCache rt0) "width" = JSVal.num rt0.width := by
  simp [scopeGet, buildStaticCache, liveProps, List.lookup]

lemma scopeGet_cache_height (rt rt0 : RuntimeState) :
    scopeGet rt (buildStaticCache rt0) "height" = JSVal.num rt0.height := by
  simp [scopeGet, buildStaticCache, liveProps, List.lookup]

/-- C2 counterexample: the requested geometry 100x901 is scaled
(wasScaled = true) yet the script-visible runtime width — the original
request, 100 — is equal to the scaled render-buffer width, because
round(100 · 900/901) = 100.  So the script-visible dimensions can equal
the buffer dimensions when scaling occurred. -/
theorem C2_counterexample :
    (calculateScaledDimensions 100 901).wasScaled = true
    ∧ (engineInit
        { width := 100, height := 901, totalFrames := none,
          budgetBehavior := none, showOverlay := none, maxFrames := none,
          maxTimeMs := none, hasOnBudgetExceeded := false, hasDrawFn := true }
        []).runtime.width
      = (calculateScaledDimensions 100 901).renderWidth := by
  constructor
  · rw [calculateScaledDimensions_wasScaled_iff]
    norm_num
  · rw [engineInit_runtime_width, calc_of_lt (by norm_num)]
    norm_num [jsRound]

/-- C2 amended: the script-visible width/height of the runtime equal the
caller's requested dimensions at construction and are preserved by every
loop tick, and the compiled scope resolves width/height to those values
whatever the current runtime; when scaling occurred the buffer dimensions
cannot both equal the requested ones (the dominant axis is capped to 900),
though a single axis may coincide after rounding. -/
theorem C2_semantic_dimensions (cfg : EngineConfig) (statics : List (String × JSVal)) :
    (engineInit cfg statics).runtime.width = cfg.width
    ∧ (engineInit cfg statics).runtime.height = cfg.height
    ∧ (∀ (s : EngineState) (input : EngineTickInput),
        (engineTick cfg s input).1.runtime.width = s.runtime.width
        ∧ (engineTick cfg s input).1.runtime.height = s.runtime.height)
    ∧ (∀ rt : RuntimeState,
        scopeGet rt (buildStaticCache (engineInit cfg statics).runtime) "width"
          = JSVal.num cfg.width
        ∧ scopeGet rt (buildStaticCache (engineInit cfg statics).runtime) "height"
          = JSVal.num cfg.height)
    ∧ ((calculateScaledDimensions cfg.width cfg.height).wasScaled = true →
        ¬((calculateScaledDimensions cfg.width cfg.height).renderWidth = cfg.width
          ∧ (calculateScaledDimensions cfg.width cfg.height).renderHeight = cfg.height)) := by
  refine ⟨engineInit_runtime_width cfg statics, engineInit_runtime_height cfg statics,
    fun s input => ⟨engineTick_runtime_width cfg s input, engineTick_runtime_height cfg s input⟩,
    fun rt => ?_, ?_⟩
  · rw [scopeGet_cache_width, scopeGet_cache_height,
      engineInit_runtime_width, engineInit_runtime_height]
    exact ⟨rfl, rfl⟩
  · intro hsc hboth
    rw [calculateScaledDimensions_wasScaled_iff] at hsc
    rcases hboth with ⟨hbw, hbh⟩
    rw [calc_of_lt hsc] at hbw hbh
    rcases le_total cfg.height cfg.width with hcmp | hcmp
    · have hmax : max cfg.width cfg.height = cfg.width := max_eq_left hcmp
      rw [hmax] at hsc hbw
      have hne : cfg.width ≠ 0 := by intro h0; rw [h0] at hsc; norm_num at hsc
      have : cfg.width * (900 / cfg.width) = 900 := by field_simp
      rw [this] at hbw
      have h1 : ((900:ℤ):ℚ) = (900:ℚ) := by norm_num
      have h900 : ((jsRound (900:ℚ) : ℤ) : ℚ) = 900 := by
        rw [← h1, jsRound_intCast]
      rw [h900] at hbw
      linarith [hsc]
    · have hmax : max cfg.width cfg.height = cfg.height := max_eq_right hcmp
      rw [hmax] at hsc hbh
      have hne : cfg.height ≠ 0 := by intro h0; rw [h0] at hsc; norm_num at hsc
      have : cfg.height * (900 / cfg.height) = 900 := by field_simp
      rw [this] at hbh
      have h1 : ((900:ℤ):ℚ) = (900:ℚ) := by norm_num
      have h900 : ((jsRound (900:ℚ) : ℤ) : ℚ) = 900 := by
        rw [← h1, jsRound_intCast]
      rw [h900] at hbh
      linarith [hsc]

/-- Witness for C2 amended at 1950x2400: the runtime keeps the semantic
dimensions and the scaled buffer cannot reproduce both of them. -/
theorem C2_semantic_dimensions_witness :
    (engineInit
        { width := 1950, height := 2400, totalFrames := none,
          budgetBehavior := none, showOverlay := none, maxFrames := none,
          maxTimeMs := none, hasOnBudgetExceeded := false, hasDrawFn := true }
        []).runtime.width = 1950
    ∧ ((calculateScaledDimensions (1950:ℚ) 2400).wasScaled = true
      ∧ ¬((calculateScaledDimensions (1950:ℚ) 2400).renderWidth = 1950
          ∧ (calculateScaledDimensions (1950:ℚ) 2400).renderHeight = 2400)) := by
  have hsc : (calculateScaledDimensions (1950:ℚ) 2400).wasScaled = true := by
    rw [calculateScaledDimensions_wasScaled_iff]
    norm_num
  have h := C2_semantic_dimensions
    { width := 1950, height := 2400, totalFrames := none,
      budgetBehavior := none, showOverlay := none, maxFrames := none,
      maxTimeMs := none, hasOnBudgetExceeded := false, hasDrawFn := true } []
  exact ⟨h.1, hsc, h.2.2.2.2 hsc⟩

lemma engineTick_scheduled (cfg : EngineConfig) (s : EngineState)
    (input : EngineTickInput) : (engineTick cfg s input).2.scheduled = true := by
  simp only [engineTick, engineTickBody]
  split_ifs <;> rfl

lemma crTick_scheduled (totalFrames : ℕ) (showBadge drawThrows : Bool) (s : CRState) :
    (crTick totalFrames showBadge drawThrows s).2.scheduled = true := by
  simp only [crTick]
  split_ifs <;> rfl

lemma engineRun_sched_count (cfg : EngineConfig) :
    ∀ (inputs : List EngineTickInput) (s : EngineState),
      ((engineRun cfg s inputs).2.filter (fun ev => ev.scheduled)).length
        = inputs.length := by
  intro inputs
  induction inputs with
  | nil => intro s; rfl
  | cons i rest ih =>
    intro s
    simp only [engineRun]
    rw [List.filter_cons, if_pos (by simp [engineTick_scheduled])]
    simp [ih]

/-- C1: every tick of either animation loop re-registers the next tick
before the running check, the frame-counter increment, the budget gate,
the stride gate and the draw step run, and no gate outcome ever prevents
the re-registration: a PreviewEngine run over any N tick inputs — in
particular over N ticks whose budget gate is always false — performs
exactly N next-tick schedulings. -/
theorem C1_schedule_before_gates :
    (∀ (cfg : EngineConfig) (s : EngineState) (input : EngineTickInput),
      (engineTick cfg s input).2.scheduled = true)
    ∧ (∀ (totalFrames : ℕ) (showBadge drawThrows : Bool) (s : CRState),
      (crTick totalFrames showBadge drawThrows s).2.scheduled = true)
    ∧ (∀ (cfg : EngineConfig) (s : EngineState) (inputs : List EngineTickInput),
      ((engineRun cfg s inputs).2.filter (fun ev => ev.scheduled)).length
        = inputs.length) :=
  ⟨engineTick_scheduled, crTick_scheduled,
    fun cfg s inputs => engineRun_sched_count cfg inputs s⟩

lemma behavior_degrade_of_getD (cfg : EngineConfig)
    (hbv : cfg.budgetBehavior.getD BudgetBehavior.stop = BudgetBehavior.degrade) :
    cfg.budgetBehavior = some BudgetBehavior.degrade := by
  rcases hx : cfg.budgetBehavior with _ | b
  · rw [hx] at hbv
    simp [Option.getD] at hbv
  · rcases b
    · rw [hx] at hbv
      simp [Option.getD] at hbv
    · rfl

/-- handleBudgetExceeded on a fresh reason: it records the reason and
reports the callback reason exactly when the callback is configured. -/
lemma hbe_reason_of_none (cfg : EngineConfig) (s : EngineState) (r : BudgetExceedReason)
    (h : s.budgetExceededReason = none) :
    (handleBudgetExceeded cfg s r).1.budgetExceededReason = some r
    ∧ (handleBudgetExceeded cfg s r).2
        = (if cfg.hasOnBudgetExceeded then some r else none) := by
  rcases hbv : cfg.budgetBehavior.getD BudgetBehavior.stop with _ | _
  · rw [hbe_of_none_stop cfg s r h hbv]
    simp
  · rw [hbe_of_none_degrade cfg s r h (behavior_degrade_of_getD cfg hbv)]
    exact ⟨rfl, rfl⟩

lemma hbe_stride_degrade (cfg : EngineConfig) (s : EngineState) (r : BudgetExceedReason)
    (hb : cfg.budgetBehavior = some BudgetBehavior.degrade)
    (hs : s.currentStride = 2) :
    (handleBudgetExceeded cfg s r).1.currentStride = 2 := by
  rcases ho : s.budgetExceededReason with _ | r0
  · rw [hbe_of_none_degrade cfg s r ho hb]
    rfl
  · rw [hbe_of_some cfg s r (by rw [ho]; rfl)]
    exact hs

lemma hbe_running_degrade (cfg : EngineConfig) (s : EngineState) (r : BudgetExceedReason)
    (hb : cfg.budgetBehavior = some BudgetBehavior.degrade) :
    (handleBudgetExceeded cfg s r).1.running = s.running := by
  rcases ho : s.budgetExceededReason with _ | r0
  · rw [hbe_of_none_degrade cfg s r ho hb]
  · rw [hbe_of_some cfg s r (by rw [ho]; rfl)]

lemma hbe_none_char (cfg : EngineConfig) (s : EngineState) (r : BudgetExceedReason)
    (h : s.budgetExceededReason = none) :
    (handleBudgetExceeded cfg s r).2.isSome
        = (cfg.hasOnBudgetExceeded : Bool)
    ∧ (handleBudgetExceeded cfg s r).1.budgetExceededReason.isSome = true := by
  rcases hbe_reason_of_none cfg s r h with ⟨h1, h2⟩
  rw [h1, h2]
  rcases hcb : cfg.hasOnBudgetExceeded <;> simp

lemma hbe_some_char (cfg : EngineConfig) (s : EngineState) (r : BudgetExceedReason)
    (h : s.budgetExceededReason.isSome = true) :
    (handleBudgetExceeded cfg s r).2 = none
    ∧ (handleBudgetExceeded cfg s r).1.budgetExceededReason = s.budgetExceededReason := by
  rw [hbe_of_some cfg s r h]
  exact ⟨rfl, rfl⟩

lemma engineTick_not_running (cfg : EngineConfig) (s : EngineState)
    (input : EngineTickInput) (h : s.running = false) :
    engineTick cfg s input = (s, { defaultEngineEvents with scheduled := true }) := by
  simp [engineTick, h]

lemma engineTick_of_running (cfg : EngineConfig) (s : EngineState)
    (input : EngineTickInput) (hr : s.running = true) :
    engineTick cfg s input
      = engineTickBody cfg
          { s with internalFrameCount := s.internalFrameCount + 1 } input := by
  simp [engineTick, hr]

/-- The tick body only ever reports the checkBudget outcome in its events
and keeps every non-runtime state field the budget arbiter produced. -/
lemma engineTickBody_proj (cfg : EngineConfig) (s1 : EngineState)
    (input : EngineTickInput) :
    (engineTickBody cfg s1 input).2.fired = (checkBudget cfg s1 input.elapsedMs).2.2
    ∧ (engineTickBody cfg s1 input).2.gateCrossed
        = !(checkBudget cfg s1 input.elapsedMs).2.1
    ∧ (engineTickBody cfg s1 input).1.budgetExceededReason
        = (checkBudget cfg s1 input.elapsedMs).1.budgetExceededReason
    ∧ (engineTickBody cfg s1 input).1.running
        = (checkBudget cfg s1 input.elapsedMs).1.running
    ∧ (engineTickBody cfg s1 input).1.internalFrameCount
        = (checkBudget cfg s1 input.elapsedMs).1.internalFrameCount
    ∧ (engineTickBody cfg s1 input).1.currentStride
        = (checkBudget cfg s1 input.elapsedMs).1.currentStride := by
  simp only [engineTickBody]
  split_ifs <;> simp

lemma engineTickBody_fired_none (cfg : EngineConfig) (s1 : EngineState)
    (input : EngineTickInput) (h : s1.budgetExceededReason = none) :
    (engineTickBody cfg s1 input).2.fired
      = (if cfg.maxFrames.getD PREVIEW_BUDGET.MAX_FRAMES ≤ s1.internalFrameCount then
          (if cfg.hasOnBudgetExceeded then some BudgetExceedReason.frame_limit else none)
        else if cfg.maxTimeMs.getD PREVIEW_BUDGET.MAX_TOTAL_TIME_MS ≤ input.elapsedMs then
          (if cfg.hasOnBudgetExceeded then some BudgetExceedReason.time_limit else none)
        else none) := by
  rw [(engineTickBody_proj cfg s1 input).1]
  rcases le_or_lt (cfg.maxFrames.getD PREVIEW_BUDGET.MAX_FRAMES)
      s1.internalFrameCount with hf | hf
  · rw [cb_frame cfg s1 input.elapsedMs hf, if_pos hf]
    exact (hbe_reason_of_none cfg s1 _ h).2
  · rw [if_neg (by omega)]
    rcases le_or_lt (cfg.maxTimeMs.getD PREVIEW_BUDGET.MAX_TOTAL_TIME_MS)
        input.elapsedMs with ht | ht
    · rw [cb_time cfg s1 input.elapsedMs hf ht, if_pos ht]
      exact (hbe_reason_of_none cfg s1 _ h).2
    · rw [cb_ok cfg s1 input.elapsedMs hf ht, if_neg (by omega)]

lemma engineTickBody_fired_some (cfg : EngineConfig) (s1 : EngineState)
    (input : EngineTickInput) (h : s1.budgetExceededReason.isSome = true) :
    (engineTickBody cfg s1 input).2.fired = none := by
  rw [(engineTickBody_proj cfg s1 input).1]
  rcases le_or_lt (cfg.maxFrames.getD PREVIEW_BUDGET.MAX_FRAMES)
      s1.internalFrameCount with hf | hf
  · rw [cb_frame cfg s1 input.elapsedMs hf]
    exact (hbe_some_char cfg s1 _ h).1
  · rcases le_or_lt (cfg.maxTimeMs.getD PREVIEW_BUDGET.MAX_TOTAL_TIME_MS)
        input.elapsedMs with ht | ht
    · rw [cb_time cfg s1 input.elapsedMs hf ht]
      exact (hbe_some_char cfg s1 _ h).1
    · rw [cb_ok cfg s1 input.elapsedMs hf ht]

lemma engineTickBody_reason_some (cfg : EngineConfig) (s1 : EngineState)
    (input : EngineTickInput) (h : s1.budgetExceededReason.isSome = true) :
    (engineTickBody cfg s1 input).1.budgetExceededReason = s1.budgetExceededReason := by
  rw [(engineTickBody_proj cfg s1 input).2.2.1]
  rcases le_or_lt (cfg.maxFrames.getD PREVIEW_BUDGET.MAX_FRAMES)
      s1.internalFrameCount with hf | hf
  · rw [cb_frame cfg s1 input.elapsedMs hf]
    exact (hbe_some_char cfg s1 _ h).2
  · rcases le_or_lt (cfg.maxTimeMs.getD PREVIEW_BUDGET.MAX_TOTAL_TIME_MS)
        input.elapsedMs with ht | ht
    · rw [cb_time cfg s1 input.elapsedMs hf ht]
      exact (hbe_some_char cfg s1 _ h).2
    · rw [cb_ok cfg s1 input.elapsedMs hf ht]

lemma engineTickBody_crossed (cfg : EngineConfig) (s1 : EngineState)
    (input : EngineTickInput) :
    (engineTickBody cfg s1 input).2.gateCrossed
      = decide (cfg.maxFrames.getD PREVIEW_BUDGET.MAX_FRAMES ≤ s1.internalFrameCount
          ∨ cfg.maxTimeMs.getD PREVIEW_BUDGET.MAX_TOTAL_TIME_MS ≤ input.elapsedMs) := by
  rw [(engineTickBody_proj cfg s1 input).2.1]
  rcases le_or_lt (cfg.maxFrames.getD PREVIEW_BUDGET.MAX_FRAMES)
      s1.internalFrameCount with hf | hf
  · rw [cb_frame cfg s1 input.elapsedMs hf]
    simp [hf]
  · rcases le_or_lt (cfg.maxTimeMs.getD PREVIEW_BUDGET.MAX_TOTAL_TIME_MS)
        input.elapsedMs with ht | ht
    · rw [cb_time cfg s1 input.elapsedMs hf ht]
      simp [ht]
    · rw [cb_ok cfg s1 input.elapsedMs hf ht]
      simp
      omega

lemma engineTickBody_reason_none (cfg : EngineConfig) (s1 : EngineState)
    (input : EngineTickInput) (h : s1.budgetExceededReason = none) :
    (engineTickBody cfg s1 input).1.budgetExceededReason
      = (if cfg.maxFrames.getD PREVIEW_BUDGET.MAX_FRAMES ≤ s1.internalFrameCount then
          some BudgetExceedReason.frame_limit
        else if cfg.maxTimeMs.getD PREVIEW_BUDGET.MAX_TOTAL_TIME_MS ≤ input.elapsedMs then
          some BudgetExceedReason.time_limit
        else none) := by
  rw [(engineTickBody_proj cfg s1 input).2.2.1]
  rcases le_or_lt (cfg.maxFrames.getD PREVIEW_BUDGET.MAX_FRAMES)
      s1.internalFrameCount with hf | hf
  · rw [cb_frame cfg s1 input.elapsedMs hf, if_pos hf]
    exact (hbe_reason_of_none cfg s1 _ h).1
  · rw [if_neg (by omega)]
    rcases le_or_lt (cfg.maxTimeMs.getD PREVIEW_BUDGET.MAX_TOTAL_TIME_MS)
        input.elapsedMs with ht | ht
    · rw [cb_time cfg s1 input.elapsedMs hf ht, if_pos ht]
      exact (hbe_reason_of_none cfg s1 _ h).1
    · rw [cb_ok cfg s1 input.elapsedMs hf ht, if_neg (by omega)]
      exact h

/-- With the callback configured and a fresh session reason, a tick fires
exactly when its gate crossed, and the reason stays fresh exactly when the
gate did not cross. -/
lemma engineTick_none_char (cfg : EngineConfig) (s : EngineState)
    (input : EngineTickInput) (hcb : cfg.hasOnBudgetExceeded = true)
    (h : s.budgetExceededReason = none) :
    (engineTick cfg s input).2.fired.isSome = (engineTick cfg s input).2.gateCrossed
    ∧ ((engineTick cfg s input).1.budgetExceededReason = none
        ↔ (engineTick cfg s input).2.gateCrossed = false) := by
  rcases hrr : s.running with _ | _
  · rw [engineTick_not_running cfg s input hrr]
    simp [defaultEngineEvents, h]
  · rw [engineTick_of_running cfg s input hrr]
    have h1 : ({ s with internalFrameCount := s.internalFrameCount + 1 }
        : EngineState).budgetExceededReason = none := h
    rw [engineTickBody_fired_none cfg _ input h1,
      engineTickBody_reason_none cfg _ input h1,
      engineTickBody_crossed cfg _ input,
      show ({ s with internalFrameCount := s.internalFrameCount + 1 }
          : EngineState).internalFrameCount = s.internalFrameCount + 1 from rfl]
    constructor
    · split_ifs with hf ht <;> simp_all
    · split_ifs with hf ht <;> simp_all

lemma engineTick_some_char (cfg : EngineConfig) (s : EngineState)
    (input : EngineTickInput) (h : s.budgetExceededReason.isSome = true) :
    (engineTick cfg s input).2.fired = none
    ∧ (engineTick cfg s input).1.budgetExceededReason = s.budgetExceededReason := by
  rcases hrr : s.running with _ | _
  · rw [engineTick_not_running cfg s input hrr]
    exact ⟨rfl, rfl⟩
  · rw [engineTick_of_running cfg s input hrr]
    have h1 : ({ s with internalFrameCount := s.internalFrameCount + 1 }
        : EngineState).budgetExceededReason.isSome = true := h
    exact ⟨engineTickBody_fired_some cfg _ input h1,
      engineTickBody_reason_some cfg _ input h1⟩

lemma countFired_cons (ev : EngineTickEvents) (evs : List EngineTickEvents) :
    countFired (ev :: evs)
      = (if ev.fired.isSome then 1 else 0) + countFired evs := by
  unfold countFired
  rw [List.filter_cons]
  split_ifs with hc <;> simp [List.length_cons, Nat.add_comm]

lemma anyCrossed_cons (ev : EngineTickEvents) (evs : List EngineTickEvents) :
    anyCrossed (ev :: evs) = (ev.gateCrossed || anyCrossed evs) := by
  simp [anyCrossed]

lemma engineRun_fired_zero (cfg : EngineConfig) :
    ∀ (inputs : List EngineTickInput) (s : EngineState),
      s.budgetExceededReason.isSome = true →
      countFired (engineRun cfg s inputs).2 = 0 := by
  intro inputs
  induction inputs with
  | nil => intro s h; rfl
  | cons i is ih =>
    intro s h
    simp only [engineRun]
    rw [countFired_cons, (engineTick_some_char cfg s i h).1]
    have h2 : (engineTick cfg s i).1.budgetExceededReason.isSome = true := by
      rw [(engineTick_some_char cfg s i h).2]
      exact h
    simp [ih _ h2]

lemma engineRun_fired_count (cfg : EngineConfig)
    (hcb : cfg.hasOnBudgetExceeded = true) :
    ∀ (inputs : List EngineTickInput) (s : EngineState),
      s.budgetExceededReason = none →
      countFired (engineRun cfg s inputs).2
        = (if anyCrossed (engineRun cfg s inputs).2 = true then 1 else 0) := by
  intro inputs
  induction inputs with
  | nil => intro s h; rfl
  | cons i is ih =>
    intro s h
    simp only [engineRun]
    simp only [countFired_cons, anyCrossed_cons]
    rcases hg : (engineTick cfg s i).2.gateCrossed with _ | _
    · have hfired : (engineTick cfg s i).2.fired.isSome = false := by
        rw [(engineTick_none_char cfg s i hcb h).1, hg]
      have hreason : (engineTick cfg s i).1.budgetExceededReason = none :=
        ((engineTick_none_char cfg s i hcb h).2).mpr hg
      simp only [hfired, hg, ih _ hreason]
      simp
    · have hfired : (engineTick cfg s i).2.fired.isSome = true := by
        rw [(engineTick_none_char cfg s i hcb h).1, hg]
      have hreason : (engineTick cfg s i).1.budgetExceededReason.isSome = true := by
        rcases hx : (engineTick cfg s i).1.budgetExceededReason with _ | r
        · have := ((engineTick_none_char cfg s i hcb h).2).mp hx
          rw [this] at hg
          cases hg
        · rfl
      simp only [hfired, hg, engineRun_fired_zero cfg is _ hreason]
      simp

lemma startLoop_reset (s : EngineState) (h : s.running = false) :
    (startLoop s).budgetExceededReason = none
    ∧ (startLoop s).running = true
    ∧ (startLoop s).internalFrameCount = 0
    ∧ (startLoop s).currentStride = 1 := by
  simp [startLoop, h]

/-- C5: starting a fresh loop session resets the exceeded state; over any
run of ticks the onBudgetExceeded callback fires at most once, it fires
exactly when some tick crossed a ceiling, and on the tick of the first
crossing the reason is frame-limit when the frame ceiling was reached
(checked first, even if both ceilings are crossed on the same tick) and
time-limit otherwise. -/
theorem C5_budget_fires_once (cfg : EngineConfig) (s0 : EngineState)
    (inputs : List EngineTickInput)
    (hcb : cfg.hasOnBudgetExceeded = true) (h0 : s0.running = false) :
    countFired (engineRun cfg (startLoop s0) inputs).2 ≤ 1
    ∧ (countFired (engineRun cfg (startLoop s0) inputs).2 = 1
        ↔ anyCrossed (engineRun cfg (startLoop s0) inputs).2 = true)
    ∧ (startLoop s0).budgetExceededReason = none
    ∧ (∀ (s : EngineState) (input : EngineTickInput),
        s.running = true → s.budgetExceededReason = none →
        (engineTick cfg s input).2.fired
          = (if cfg.maxFrames.getD PREVIEW_BUDGET.MAX_FRAMES
                ≤ s.internalFrameCount + 1 then
              some BudgetExceedReason.frame_limit
            else if cfg.maxTimeMs.getD PREVIEW_BUDGET.MAX_TOTAL_TIME_MS
                ≤ input.elapsedMs then
              some BudgetExceedReason.time_limit
            else none)) := by
  have hreset := (startLoop_reset s0 h0).1
  have hL1 := engineRun_fired_count cfg hcb inputs (startLoop s0) hreset
  refine ⟨?_, ?_, hreset, ?_⟩
  · rw [hL1]
    split_ifs <;> omega
  · rw [hL1]
    split_ifs with ha <;> simp [ha]
  · intro s input hr hnone
    rw [engineTick_of_running cfg s input hr]
    have h1 : ({ s with internalFrameCount := s.internalFrameCount + 1 }
        : EngineState).budgetExceededReason = none := hnone
    rw [engineTickBody_fired_none cfg _ input h1]
    simp [hcb]

/-- Witness for C5: a 3-tick run with a 1-frame budget in degrade mode
fires at most once, and the first tick of a fresh session with both
ceilings crossed reports the frame-limit reason. -/
theorem C5_budget_fires_once_witness :
    countFired
      (engineRun
        { width := 100, height := 100, totalFrames := none,
          budgetBehavior := some BudgetBehavior.degrade, showOverlay := none,
          maxFrames := some 1, maxTimeMs := some 5, hasOnBudgetExceeded := true,
          hasDrawFn := true }
        (startLoop (engineInit
          { width := 100, height := 100, totalFrames := none,
            budgetBehavior := some BudgetBehavior.degrade, showOverlay := none,
            maxFrames := some 1, maxTimeMs := some 5, hasOnBudgetExceeded := true,
            hasDrawFn := true } []))
        [⟨9, false⟩, ⟨9, false⟩, ⟨9, false⟩]).2 ≤ 1
    ∧ (engineTick
        { width := 100, height := 100, totalFrames := none,
          budgetBehavior := some BudgetBehavior.degrade, showOverlay := none,
          maxFrames := some 1, maxTimeMs := some 5, hasOnBudgetExceeded := true,
          hasDrawFn := true }
        (startLoop (engineInit
          { width := 100, height := 100, totalFrames := none,
            budgetBehavior := some BudgetBehavior.degrade, showOverlay := none,
            maxFrames := some 1, maxTimeMs := some 5, hasOnBudgetExceeded := true,
            hasDrawFn := true } []))
        ⟨9, false⟩).2.fired = some BudgetExceedReason.frame_limit := by
  constructor
  · exact (C5_budget_fires_once
      { width := 100, height := 100, totalFrames := none,
        budgetBehavior := some BudgetBehavior.degrade, showOverlay := none,
        maxFrames := some 1, maxTimeMs := some 5, hasOnBudgetExceeded := true,
        hasDrawFn := true }
      (engineInit
        { width := 100, height := 100, totalFrames := none,
          budgetBehavior := some BudgetBehavior.degrade, showOverlay := none,
          maxFrames := some 1, maxTimeMs := some 5, hasOnBudgetExceeded := true,
          hasDrawFn := true } [])
      [⟨9, false⟩, ⟨9, false⟩, ⟨9, false⟩] rfl rfl).1
  · rw [(C5_budget_fires_once
      { width := 100, height := 100, totalFrames := none,
        budgetBehavior := some BudgetBehavior.degrade, showOverlay := none,
        maxFrames := some 1, maxTimeMs := some 5, hasOnBudgetExceeded := true,
        hasDrawFn := true }
      (engineInit
        { width := 100, height := 100, totalFrames := none,
          budgetBehavior := some BudgetBehavior.degrade, showOverlay := none,
          maxFrames := some 1, maxTimeMs := some 5, hasOnBudgetExceeded := true,
          hasDrawFn := true } [])
      [(⟨9, false⟩ : EngineTickInput)] rfl rfl).2.2.2 _ ⟨9, false⟩ rfl rfl]
    norm_num

lemma cb_stride_degrade (cfg : EngineConfig) (s : EngineState) (e : ℕ)
    (hb : cfg.budgetBehavior = some BudgetBehavior.degrade)
    (hs : s.currentStride = 2) :
    (checkBudget cfg s e).1.currentStride = 2 := by
  rcases le_or_lt (cfg.maxFrames.getD PREVIEW_BUDGET.MAX_FRAMES)
      s.internalFrameCount with hf | hf
  · rw [cb_frame cfg s e hf]
    exact hbe_stride_degrade cfg s _ hb hs
  · rcases le_or_lt (cfg.maxTimeMs.getD PREVIEW_BUDGET.MAX_TOTAL_TIME_MS) e with ht | ht
    · rw [cb_time cfg s e hf ht]
      exact hbe_stride_degrade cfg s _ hb hs
    · rw [cb_ok cfg s e hf ht]
      exact hs

lemma cb_running_degrade (cfg : EngineConfig) (s : EngineState) (e : ℕ)
    (hb : cfg.budgetBehavior = some BudgetBehavior.degrade) :
    (checkBudget cfg s e).1.running = s.running := by
  rcases le_or_lt (cfg.maxFrames.getD PREVIEW_BUDGET.MAX_FRAMES)
      s.internalFrameCount with hf | hf
  · rw [cb_frame cfg s e hf]
    exact hbe_running_degrade cfg s _ hb
  · rcases le_or_lt (cfg.maxTimeMs.getD PREVIEW_BUDGET.MAX_TOTAL_TIME_MS) e with ht | ht
    · rw [cb_time cfg s e hf ht]
      exact hbe_running_degrade cfg s _ hb
    · rw [cb_ok cfg s e hf ht]

/-- In degrade behavior with the stride already at 2, the budget outcome
never gates drawing: the tick draws exactly on even frame counts. -/
lemma engineTickBody_degrade_drew (cfg : EngineConfig) (s1 : EngineState)
    (input : EngineTickInput)
    (hb : cfg.budgetBehavior = some BudgetBehavior.degrade)
    (hdf : cfg.hasDrawFn = true) (hs : s1.currentStride = 2)
    (hth : input.drawThrows = false) :
    (engineTickBody cfg s1 input).2.drew = decide (s1.internalFrameCount % 2 = 0)
    ∧ (engineTickBody cfg s1 input).1.currentStride = 2
    ∧ (engineTickBody cfg s1 input).1.running = s1.running
    ∧ (engineTickBody cfg s1 input).1.internalFrameCount = s1.internalFrameCount := by
  have hcbs := cb_stride_degrade cfg s1 input.elapsedMs hb hs
  have hcbr := cb_running_degrade cfg s1 input.elapsedMs hb
  have hcbf := cb_frames_preserved cfg s1 input.elapsedMs
  simp only [engineTickBody]
  rw [if_neg (by simp [hb])]
  by_cases hpar : s1.internalFrameCount % 2 = 0
  · rw [if_neg (by rw [hcbs, hcbf]; simp [hpar])]
    rw [if_neg (by simp [hth])]
    exact ⟨by simp [hdf, hpar], by simp [hcbs], by simp [hcbr], by simp [hcbf]⟩
  · rw [if_pos ⟨by rw [hcbs]; norm_num, by rw [hcbs, hcbf]; exact hpar⟩]
    exact ⟨by simp [hpar, defaultEngineEvents], by simp [hcbs], by simp [hcbr],
      by simp [hcbf]⟩

lemma engineTick_degrade_tick (cfg : EngineConfig) (s : EngineState)
    (input : EngineTickInput)
    (hb : cfg.budgetBehavior = some BudgetBehavior.degrade)
    (hdf : cfg.hasDrawFn = true) (hr : s.running = true)
    (hs : s.currentStride = 2) (hth : input.drawThrows = false) :
    (engineTick cfg s input).2.drew = decide ((s.internalFrameCount + 1) % 2 = 0)
    ∧ (engineTick cfg s input).1.currentStride = 2
    ∧ (engineTick cfg s input).1.running = true
    ∧ (engineTick cfg s input).1.internalFrameCount = s.internalFrameCount + 1 := by
  rw [engineTick_of_running cfg s input hr]
  have hbody := engineTickBody_degrade_drew cfg
    { s with internalFrameCount := s.internalFrameCount + 1 } input hb hdf hs hth
  refine ⟨hbody.1, hbody.2.1, ?_, hbody.2.2.2⟩
  rw [hbody.2.2.1]
  exact hr

lemma countDrew_cons (ev : EngineTickEvents) (evs : List EngineTickEvents) :
    countDrew (ev :: evs) = (if ev.drew then 1 else 0) + countDrew evs := by
  unfold countDrew
  rw [List.filter_cons]
  split_ifs with hc <;> simp [List.length_cons, Nat.add_comm]

lemma engineRun_degrade_count (cfg : EngineConfig)
    (hb : cfg.budgetBehavior = some BudgetBehavior.degrade)
    (hdf : cfg.hasDrawFn = true) :
    ∀ (inputs : List EngineTickInput) (s : EngineState),
      (∀ i ∈ inputs, i.drawThrows = false) →
      s.running = true → s.currentStride = 2 →
      (engineRun cfg s inputs).1.running = true
      ∧ countDrew (engineRun cfg s inputs).2
          = (s.internalFrameCount + inputs.length) / 2
              - s.internalFrameCount / 2 := by
  intro inputs
  induction inputs with
  | nil =>
    intro s _ hr _
    refine ⟨hr, ?_⟩
    simp only [engineRun, countDrew, List.filter_nil, List.length_nil]
    omega
  | cons i is ih =>
    intro s hth hr hs
    have hth1 : i.drawThrows = false := hth i (by simp)
    have htick := engineTick_degrade_tick cfg s i hb hdf hr hs hth1
    have hthtail : ∀ j ∈ is, j.drawThrows = false := fun j hj => hth j (by simp [hj])
    have hrec := ih (engineTick cfg s i).1 hthtail htick.2.2.1 htick.2.1
    simp only [engineRun, countDrew_cons, List.length_cons]
    refine ⟨hrec.1, ?_⟩
    rw [htick.1, hrec.2, htick.2.2.2]
    by_cases hpar : (s.internalFrameCount + 1) % 2 = 0
    · rw [if_pos (by simp [hpar])]
      omega
    · rw [if_neg (by simp [hpar])]
      omega

/-- C6: with budgetBehavior degrade the loop is never halted by any tick;
once the stride is at its degrade value 2 and draw throws nothing, the
number of drawFn invocations over the next K ticks is the number of even
frame counts among them — exactly half of K within one — and any tick
that crosses a ceiling with a fresh session reason sets the stride to the
fixed constant PREVIEW_BUDGET.DEGRADE_STRIDE = 2. -/
theorem C6_degrade_stride (cfg : EngineConfig) (s : EngineState)
    (inputs : List EngineTickInput)
    (hb : cfg.budgetBehavior = some BudgetBehavior.degrade)
    (hdf : cfg.hasDrawFn = true)
    (hr : s.running = true)
    (hs : s.currentStride = 2)
    (hth : ∀ i ∈ inputs, i.drawThrows = false) :
    (engineRun cfg s inputs).1.running = true
    ∧ countDrew (engineRun cfg s inputs).2
        = (s.internalFrameCount + inputs.length) / 2 - s.internalFrameCount / 2
    ∧ 2 * countDrew (engineRun cfg s inputs).2 ≤ inputs.length + 1
    ∧ inputs.length ≤ 2 * countDrew (engineRun cfg s inputs).2 + 1
    ∧ (∀ (s1 : EngineState) (input : EngineTickInput),
        s1.budgetExceededReason = none →
        (engineTick cfg s1 input).2.gateCrossed = true →
        (engineTick cfg s1 input).1.currentStride = PREVIEW_BUDGET.DEGRADE_STRIDE)
    ∧ (∀ (s1 : EngineState) (input : EngineTickInput),
        (engineTick cfg s1 input).1.running = s1.running) := by
  have hcount := engineRun_degrade_count cfg hb hdf inputs s hth hr hs
  refine ⟨hcount.1, hcount.2, by rw [hcount.2]; omega, by rw [hcount.2]; omega, ?_, ?_⟩
  · intro s1 input h1 hcrossed
    rcases hrr : s1.running with _ | _
    · rw [engineTick_not_running cfg s1 input hrr] at hcrossed
      simp [defaultEngineEvents] at hcrossed
    · rw [engineTick_of_running cfg s1 input hrr] at hcrossed ⊢
      have h1b : ({ s1 with internalFrameCount := s1.internalFrameCount + 1 }
          : EngineState).budgetExceededReason = none := h1
      rw [engineTickBody_crossed cfg _ input] at hcrossed
      have hor : cfg.maxFrames.getD PREVIEW_BUDGET.MAX_FRAMES
            ≤ s1.internalFrameCount + 1
          ∨ cfg.maxTimeMs.getD PREVIEW_BUDGET.MAX_TOTAL_TIME_MS
            ≤ input.elapsedMs := of_decide_eq_true hcrossed
      rw [(engineTickBody_proj cfg _ input).2.2.2.2.2]
      rcases le_or_lt (cfg.maxFrames.getD PREVIEW_BUDGET.MAX_FRAMES)
          (s1.internalFrameCount + 1) with hf | hf
      · rw [cb_frame cfg _ input.elapsedMs hf,
          hbe_of_none_degrade cfg _ _ h1b hb]
      · have ht : cfg.maxTimeMs.getD PREVIEW_BUDGET.MAX_TOTAL_TIME_MS
            ≤ input.elapsedMs := by
          rcases hor with h2 | h2
          · omega
          · exact h2
        rw [cb_time cfg _ input.elapsedMs hf ht,
          hbe_of_none_degrade cfg _ _ h1b hb]
  · intro s1 input
    rcases hrr : s1.running with _ | _
    · rw [engineTick_not_running cfg s1 input hrr]
      exact hrr
    · rw [engineTick_of_running cfg s1 input hrr,
        (engineTickBody_proj cfg _ input).2.2.2.1,
        cb_running_degrade cfg _ input.elapsedMs hb]
      exact hrr

/-- Witness for C6: from an exceeded degrade state at frame 5 with stride
2, a 4-tick run stays running and draws exactly twice. -/
theorem C6_degrade_stride_witness :
    (engineRun
      { width := 100, height := 100, totalFrames := none,
        budgetBehavior := some BudgetBehavior.degrade, showOverlay := none,
        maxFrames := some 0, maxTimeMs := none, hasOnBudgetExceeded := true,
        hasDrawFn := true }
      { running := true, internalFrameCount := 5, currentStride := 2,
        budgetExceededReason := some BudgetExceedReason.frame_limit,
        overlayShown := false, runtime := createPreviewRuntime 100 100 [] }
      [⟨0, false⟩, ⟨0, false⟩, ⟨0, false⟩, ⟨0, false⟩]).1.running = true
    ∧ countDrew
        (engineRun
          { width := 100, height := 100, totalFrames := none,
            budgetBehavior := some BudgetBehavior.degrade, showOverlay := none,
            maxFrames := some 0, maxTimeMs := none, hasOnBudgetExceeded := true,
            hasDrawFn := true }
          { running := true, internalFrameCount := 5, currentStride := 2,
            budgetExceededReason := some BudgetExceedReason.frame_limit,
            overlayShown := false, runtime := createPreviewRuntime 100 100 [] }
          [⟨0, false⟩, ⟨0, false⟩, ⟨0, false⟩, ⟨0, false⟩]).2 = 2 := by
  have h := C6_degrade_stride
    { width := 100, height := 100, totalFrames := none,
      budgetBehavior := some BudgetBehavior.degrade, showOverlay := none,
      maxFrames := some 0, maxTimeMs := none, hasOnBudgetExceeded := true,
      hasDrawFn := true }
    { running := true, internalFrameCount := 5, currentStride := 2,
      budgetExceededReason := some BudgetExceedReason.frame_limit,
      overlayShown := false, runtime := createPreviewRuntime 100 100 [] }
    [⟨0, false⟩, ⟨0, false⟩, ⟨0, false⟩, ⟨0, false⟩]
    rfl rfl rfl rfl (by decide)
  refine ⟨h.1, ?_⟩
  rw [h.2.1]
  decide

lemma engineTick_cleared (cfg : EngineConfig) (s : EngineState)
    (input : EngineTickInput) : (engineTick cfg s input).2.cleared = false := by
  simp only [engineTick, engineTickBody]
  split_ifs <;> rfl

/-- C7 counterexample: a PreviewEngine loop tick that invokes drawFn
performs no buffer clear at all — the scheduleNextFrame callback contains
no clear step, unlike the code-renderer loop. -/
theorem C7_counterexample :
    (engineTick
      { width := 100, height := 100, totalFrames := none,
        budgetBehavior := none, showOverlay := none, maxFrames := none,
        maxTimeMs := none, hasOnBudgetExceeded := false, hasDrawFn := true }
      { running := true, internalFrameCount := 0, currentStride := 1,
        budgetExceededReason := none, overlayShown := false,
        runtime := createPreviewRuntime 100 100 [] }
      ⟨0, false⟩).2.drew = true
    ∧ (engineTick
      { width := 100, height := 100, totalFrames := none,
        budgetBehavior := none, showOverlay := none, maxFrames := none,
        maxTimeMs := none, hasOnBudgetExceeded := false, hasDrawFn := true }
      { running := true, internalFrameCount := 0, currentStride := 1,
        budgetExceededReason := none, overlayShown := false,
        runtime := createPreviewRuntime 100 100 [] }
      ⟨0, false⟩).2.cleared = false := by
  constructor <;> rfl

/-- C7 amended: in the code-renderer loop every tick that runs the draw
step first clears the whole physical buffer with the transform ignored —
on a drawing tick the buffer operations are exactly clear, draw, then the
optional badge, so the clear always precedes the draw — while the v0.9.0
PreviewEngine loop performs no clear before drawFn on any tick. -/
theorem C7_clear_before_draw :
    (∀ (totalFrames : ℕ) (showBadge drawThrows : Bool) (s : CRState),
      s.isRunning = true → s.isDestroyed = false → drawThrows = false →
      (crTick totalFrames showBadge drawThrows s).2.ops
        = [BufOp.clear, BufOp.draw] ++ (if showBadge then [BufOp.badge] else []))
    ∧ (∀ (totalFrames : ℕ) (showBadge drawThrows : Bool) (s : CRState),
      BufOp.draw ∈ (crTick totalFrames showBadge drawThrows s).2.ops →
      (crTick totalFrames showBadge drawThrows s).2.ops.head? = some BufOp.clear)
    ∧ (∀ (cfg : EngineConfig) (s : EngineState) (input : EngineTickInput),
      (engineTick cfg s input).2.cleared = false) := by
  refine ⟨?_, ?_, engineTick_cleared⟩
  · intro totalFrames showBadge drawThrows s hr hd hth
    simp [crTick, hr, hd, hth]
  · intro totalFrames showBadge drawThrows s hmem
    simp only [crTick] at hmem ⊢
    split_ifs at hmem ⊢ <;> simp_all

/-- Witness for C7 amended: a drawing tick of the code-renderer loop
clears first and then draws. -/
theorem C7_clear_before_draw_witness :
    (crTick 120 true false
        { isRunning := true, isDestroyed := false, frameCount := 0,
          runtime := createPreviewRuntime 100 100 [] }).2.ops
      = [BufOp.clear, BufOp.draw, BufOp.badge]
    ∧ (crTick 120 true false
        { isRunning := true, isDestroyed := false, frameCount := 0,
          runtime := createPreviewRuntime 100 100 [] }).2.ops.head?
      = some BufOp.clear
    ∧ (engineTick
        { width := 100, height := 100, totalFrames := none,
          budgetBehavior := none, showOverlay := none, maxFrames := none,
          maxTimeMs := none, hasOnBudgetExceeded := false, hasDrawFn := true }
        { running := true, internalFrameCount := 0, currentStride := 1,
          budgetExceededReason := none, overlayShown := false,
          runtime := createPreviewRuntime 100 100 [] }
        ⟨0, false⟩).2.cleared = false := by
  have h1 := C7_clear_before_draw.1 120 true false
    { isRunning := true, isDestroyed := false, frameCount := 0,
      runtime := createPreviewRuntime 100 100 [] } rfl rfl rfl
  refine ⟨by rw [h1]; rfl, ?_, C7_clear_before_draw.2.2 _ _ _⟩
  apply C7_clear_before_draw.2.1
  rw [h1]
  simp

/-- C9 counterexample: in static mode the render invokes setupFn, never
drawFn — the number of drawFn calls of a static render is 0, not 1, even
when the script registered a draw function. -/
theorem C9_counterexample :
    (renderStatic true false
      (engineInit
        { width := 100, height := 100, totalFrames := none,
          budgetBehavior := none, showOverlay := none, maxFrames := none,
          maxTimeMs := none, hasOnBudgetExceeded := false, hasDrawFn := true }
        [])).2.2.drawCalls ≠ 1 := by
  decide

/-- C9 amended: a static render is a single synchronous pass that invokes
setupFn exactly once when registered (and drawFn never), performs no
clear and schedules no tick; the frame counter stays 0 throughout, and a
non-throwing setup yields the success result with framesRendered
reported as 1. -/
theorem C9_static_amended (cfg : EngineConfig) (statics : List (String × JSVal))
    (hasSetupFn setupThrows : Bool) :
    (renderStatic hasSetupFn setupThrows (engineInit cfg statics)).2.2.drawCalls = 0
    ∧ (renderStatic hasSetupFn setupThrows (engineInit cfg statics)).2.2.setupCalls
        = (if hasSetupFn then 1 else 0)
    ∧ (renderStatic hasSetupFn setupThrows (engineInit cfg statics)).2.2.scheduled = false
    ∧ (renderStatic hasSetupFn setupThrows (engineInit cfg statics)).2.2.cleared = false
    ∧ (renderStatic hasSetupFn setupThrows
        (engineInit cfg statics)).1.internalFrameCount = 0
    ∧ (renderStatic hasSetupFn setupThrows
        (engineInit cfg statics)).1.runtime.frameCount = 0
    ∧ (hasSetupFn = true → setupThrows = false →
        (renderStatic hasSetupFn setupThrows (engineInit cfg statics)).2.1.success = true
        ∧ (renderStatic hasSetupFn setupThrows
            (engineInit cfg statics)).2.1.framesRendered = 1) := by
  cases hasSetupFn <;> cases setupThrows <;> simp [renderStatic] <;>
    exact ⟨rfl, rfl⟩

/-- Witness for C9 amended: a static render of a script with both
functions registered calls setup once, draw never, and reports one frame
rendered. -/
theorem C9_static_amended_witness :
    (renderStatic true false
      (engineInit
        { width := 100, height := 100, totalFrames := none,
          budgetBehavior := none, showOverlay := none, maxFrames := none,
          maxTimeMs := none, hasOnBudgetExceeded := false, hasDrawFn := true }
        [])).2.2.drawCalls = 0
    ∧ (renderStatic true false
        (engineInit
          { width := 100, height := 100, totalFrames := none,
            budgetBehavior := none, showOverlay := none, maxFrames := none,
            maxTimeMs := none, hasOnBudgetExceeded := false, hasDrawFn := true }
          [])).2.2.setupCalls = 1
    ∧ (renderStatic true false
        (engineInit
          { width := 100, height := 100, totalFrames := none,
            budgetBehavior := none, showOverlay := none, maxFrames := none,
            maxTimeMs := none, hasOnBudgetExceeded := false, hasDrawFn := true }
          [])).2.1.framesRendered = 1 := by
  have h := C9_static_amended
    { width := 100, height := 100, totalFrames := none,
      budgetBehavior := none, showOverlay := none, maxFrames := none,
      maxTimeMs := none, hasOnBudgetExceeded := false, hasDrawFn := true }
    [] true false
  exact ⟨h.1, by rw [h.2.1]; rfl, (h.2.2.2.2.2.2 rfl rfl).2⟩

/-- A tick body that passes both gates: the runtime timing is refreshed
and drawFn runs, a throw being caught in the same tick. -/
lemma engineTickBody_ok (cfg : EngineConfig) (s1 : EngineState) (input : EngineTickInput)
    (hf : s1.internalFrameCount < cfg.maxFrames.getD PREVIEW_BUDGET.MAX_FRAMES)
    (ht : input.elapsedMs < cfg.maxTimeMs.getD PREVIEW_BUDGET.MAX_TOTAL_TIME_MS)
    (hst : s1.currentStride = 1) :
    engineTickBody cfg s1 input
      = ({ s1 with runtime := updateRuntimeTiming s1.runtime s1.internalFrameCount (cfg.totalFrames.getD 120) },
         if cfg.hasDrawFn = true ∧ input.drawThrows = true then
           { defaultEngineEvents with scheduled := true, drawErrorCaught := true }
         else
           { defaultEngineEvents with scheduled := true, drew := cfg.hasDrawFn }) := by
  simp only [engineTickBody]
  rw [cb_ok cfg s1 input.elapsedMs hf ht]
  rw [if_neg (by simp)]
  rw [if_neg (by simp [hst])]
  split_ifs with hd
  · rfl
  · rfl

lemma engineTick_ok (cfg : EngineConfig) (s : EngineState) (input : EngineTickInput)
    (hr : s.running = true)
    (hf : s.internalFrameCount + 1 < cfg.maxFrames.getD PREVIEW_BUDGET.MAX_FRAMES)
    (ht : input.elapsedMs < cfg.maxTimeMs.getD PREVIEW_BUDGET.MAX_TOTAL_TIME_MS)
    (hst : s.currentStride = 1) :
    engineTick cfg s input
      = ({ s with internalFrameCount := s.internalFrameCount + 1, runtime := updateRuntimeTiming s.runtime (s.internalFrameCount + 1) (cfg.totalFrames.getD 120) },
         if cfg.hasDrawFn = true ∧ input.drawThrows = true then
           { defaultEngineEvents with scheduled := true, drawErrorCaught := true }
         else
           { defaultEngineEvents with scheduled := true, drew := cfg.hasDrawFn }) := by
  rw [engineTick_of_running cfg s input hr]
  rw [engineTickBody_ok cfg { s with internalFrameCount := s.internalFrameCount + 1 } input hf ht hst]

/-- C10: a drawFn throw is caught inside the same tick of either loop
controller — the tick still schedules the next tick, logs the error,
leaves the running flag untouched, and contributes no completed draw
(in the code-renderer loop the only buffer operation of such a tick is
the clear that preceded the throw) — and the immediately following tick
with a non-throwing drawFn draws normally. -/
theorem C10_draw_error_contained (cfg : EngineConfig) (s : EngineState)
    (i1 i2 : EngineTickInput) (totalFrames : ℕ) (showBadge : Bool) (cs : CRState)
    (hdf : cfg.hasDrawFn = true) (hth1 : i1.drawThrows = true)
    (hth2 : i2.drawThrows = false)
    (hr : s.running = true) (hst : s.currentStride = 1)
    (hf : s.internalFrameCount + 2 < cfg.maxFrames.getD PREVIEW_BUDGET.MAX_FRAMES)
    (ht1 : i1.elapsedMs < cfg.maxTimeMs.getD PREVIEW_BUDGET.MAX_TOTAL_TIME_MS)
    (ht2 : i2.elapsedMs < cfg.maxTimeMs.getD PREVIEW_BUDGET.MAX_TOTAL_TIME_MS)
    (hcr : cs.isRunning = true) (hcd : cs.isDestroyed = false) :
    (engineTick cfg s i1).2.scheduled = true
    ∧ (engineTick cfg s i1).2.drawErrorCaught = true
    ∧ (engineTick cfg s i1).2.drew = false
    ∧ (engineTick cfg s i1).1.running = true
    ∧ (engineTick cfg (engineTick cfg s i1).1 i2).2.drew = true
    ∧ (crTick totalFrames showBadge true cs).2.drawErrorCaught = true
    ∧ (crTick totalFrames showBadge true cs).2.ops = [BufOp.clear]
    ∧ (crTick totalFrames showBadge true cs).1.isRunning = true
    ∧ BufOp.draw ∈ (crTick totalFrames showBadge false
        (crTick totalFrames showBadge true cs).1).2.ops := by
  have htick1 := engineTick_ok cfg s i1 hr (by omega) ht1 hst
  rw [htick1, if_pos ⟨hdf, hth1⟩]
  have hf2 : s.internalFrameCount + 1 + 1
      < cfg.maxFrames.getD PREVIEW_BUDGET.MAX_FRAMES := by omega
  have htick2 := engineTick_ok cfg
    ({ s with internalFrameCount := s.internalFrameCount + 1, runtime := updateRuntimeTiming s.runtime (s.internalFrameCount + 1) (cfg.totalFrames.getD 120) })
    i2 hr hf2 ht2 hst
  rw [htick2, if_neg (by simp [hth2])]
  refine ⟨rfl, rfl, rfl, hr, by simp [hdf], ?_, ?_, ?_, ?_⟩
  · simp [crTick, hcr, hcd]
  · simp [crTick, hcr, hcd]
  · simp [crTick, hcr, hcd]
  · simp [crTick, hcr, hcd]

/-- Witness for C10: from a fresh running engine state a throwing tick is
caught and the next tick draws; the code-renderer loop behaves alike. -/
theorem C10_draw_error_contained_witness :
    (engineTick
      { width := 100, height := 100, totalFrames := none,
        budgetBehavior := none, showOverlay := none, maxFrames := none,
        maxTimeMs := none, hasOnBudgetExceeded := false, hasDrawFn := true }
      { running := true, internalFrameCount := 0, currentStride := 1,
        budgetExceededReason := none, overlayShown := false,
        runtime := createPreviewRuntime 100 100 [] }
      ⟨5, true⟩).2.drawErrorCaught = true
    ∧ (engineTick
        { width := 100, height := 100, totalFrames := none,
          budgetBehavior := none, showOverlay := none, maxFrames := none,
          maxTimeMs := none, hasOnBudgetExceeded := false, hasDrawFn := true }
        (engineTick
          { width := 100, height := 100, totalFrames := none,
            budgetBehavior := none, showOverlay := none, maxFrames := none,
            maxTimeMs := none, hasOnBudgetExceeded := false, hasDrawFn := true }
          { running := true, internalFrameCount := 0, currentStride := 1,
            budgetExceededReason := none, overlayShown := false,
            runtime := createPreviewRuntime 100 100 [] }
          ⟨5, true⟩).1
        ⟨6, false⟩).2.drew = true
    ∧ (crTick 120 true true
        { isRunning := true, isDestroyed := false, frameCount := 0,
          runtime := createPreviewRuntime 100 100 [] }).2.ops = [BufOp.clear] := by
  have h := C10_draw_error_contained
    { width := 100, height := 100, totalFrames := none,
      budgetBehavior := none, showOverlay := none, maxFrames := none,
      maxTimeMs := none, hasOnBudgetExceeded := false, hasDrawFn := true }
    { running := true, internalFrameCount := 0, currentStride := 1,
      budgetExceededReason := none, overlayShown := false,
      runtime := createPreviewRuntime 100 100 [] }
    ⟨5, true⟩ ⟨6, false⟩ 120 true
    { isRunning := true, isDestroyed := false, frameCount := 0,
      runtime := createPreviewRuntime 100 100 [] }
    rfl rfl rfl rfl rfl (by decide) (by decide) (by decide) rfl rfl
  exact ⟨h.2.1, h.2.2.2.2.1, h.2.2.2.2.2.2.1⟩

/-- A running, non-destroyed, non-throwing code-renderer tick: the frame
counter advances and drawFn runs against the freshly updated runtime. -/
lemma crTick_run_false (totalFrames : ℕ) (showBadge : Bool) (s : CRState)
    (hr : s.isRunning = true) (hd : s.isDestroyed = false) :
    crTick totalFrames showBadge false s
      = ({ s with frameCount := s.frameCount + 1, runtime := updateRuntimeTiming s.runtime (s.frameCount + 1) totalFrames },
         { scheduled := true,
           ops := [BufOp.clear, BufOp.draw] ++ (if showBadge then [BufOp.badge] else []),
           drawErrorCaught := false,
           runtimeAtDraw := some (updateRuntimeTiming s.runtime (s.frameCount + 1) totalFrames) }) := by
  simp [crTick, hr, hd]

lemma crRun_replicate_spec (totalFrames : ℕ) (showBadge : Bool) :
    ∀ (n : ℕ) (s : CRState), s.isRunning = true → s.isDestroyed = false →
      (crRun totalFrames showBadge s (List.replicate n false)).1.isRunning = true
      ∧ (crRun totalFrames showBadge s (List.replicate n false)).1.isDestroyed = false
      ∧ (crRun totalFrames showBadge s (List.replicate n false)).1.frameCount
          = s.frameCount + n
      ∧ ∀ i, i < n →
          ((crRun totalFrames showBadge s (List.replicate n false)).2.getD i
              defaultCREvents).runtimeAtDraw
            = some (updateRuntimeTiming s.runtime (s.frameCount + i + 1) totalFrames) := by
  intro n
  induction n with
  | zero =>
    intro s hr hd
    exact ⟨hr, hd, rfl, by intro i hi; omega⟩
  | succ k ih =>
    intro s hr hd
    rw [List.replicate_succ]
    simp only [crRun]
    rw [crTick_run_false totalFrames showBadge s hr hd]
    have hrec := ih
      { s with frameCount := s.frameCount + 1, runtime := updateRuntimeTiming s.runtime (s.frameCount + 1) totalFrames }
      hr hd
    refine ⟨hrec.1, hrec.2.1, ?_, ?_⟩
    · rw [hrec.2.2.1]
      show s.frameCount + 1 + k = s.frameCount + (k + 1)
      omega
    · intro i hi
      rcases i with _ | j
      · simp
      · have hj := hrec.2.2.2 j (by omega)
        rw [updateRuntimeTiming_comp] at hj
        have harith : s.frameCount + 1 + j + 1 = s.frameCount + (j + 1) + 1 := by
          omega
        rw [show ({ s with frameCount := s.frameCount + 1, runtime := updateRuntimeTiming s.runtime (s.frameCount + 1) totalFrames } : CRState).frameCount = s.frameCount + 1 from rfl] at hj
        rw [harith] at hj
        simpa using hj

lemma scopeGet_frameCount (rt : RuntimeState) (cache : List (String × JSVal)) :
    scopeGet rt cache "frameCount" = JSVal.num rt.frameCount := by
  simp [scopeGet, liveRead, liveProps]

lemma scopeGet_nonlive (rt rt0 : RuntimeState) (cache : List (String × JSVal))
    (key : String) (h1 : key ∉ liveProps)
    (h2 : key ≠ "__registerSetup") (h3 : key ≠ "__registerDraw") :
    scopeGet rt cache key = scopeGet rt0 cache key := by
  simp only [scopeGet]
  simp only [if_neg h1, if_neg h2, if_neg h3]

/-- C3 counterexample: the first executed draw tick of a PreviewEngine
loop.  The tick runs drawFn and the loop sets the live frame counter to
1, but the scope compileSource built for the script captured every
runtime member by value at compile time, so it still resolves frameCount
to the frozen value 0 — the script does not observe the tick number. -/
theorem C3_counterexample :
    (engineTick
      { width := 1950, height := 2400, totalFrames := none,
        budgetBehavior := none, showOverlay := none, maxFrames := none,
        maxTimeMs := none, hasOnBudgetExceeded := false, hasDrawFn := true }
      (startLoop (engineInit
        { width := 1950, height := 2400, totalFrames := none,
          budgetBehavior := none, showOverlay := none, maxFrames := none,
          maxTimeMs := none, hasOnBudgetExceeded := false, hasDrawFn := true }
        []))
      ⟨0, false⟩).2.drew = true
    ∧ (engineTick
        { width := 1950, height := 2400, totalFrames := none,
          budgetBehavior := none, showOverlay := none, maxFrames := none,
          maxTimeMs := none, hasOnBudgetExceeded := false, hasDrawFn := true }
        (startLoop (engineInit
          { width := 1950, height := 2400, totalFrames := none,
            budgetBehavior := none, showOverlay := none, maxFrames := none,
            maxTimeMs := none, hasOnBudgetExceeded := false, hasDrawFn := true }
          []))
        ⟨0, false⟩).1.runtime.frameCount = 1
    ∧ engineCompileScope
        (engineInit
          { width := 1950, height := 2400, totalFrames := none,
            budgetBehavior := none, showOverlay := none, maxFrames := none,
            maxTimeMs := none, hasOnBudgetExceeded := false, hasDrawFn := true }
          []).runtime "frameCount"
      = JSVal.num 0
    ∧ JSVal.num (0 : ℚ) ≠ JSVal.num 1 := by
  have htick := engineTick_ok
    { width := 1950, height := 2400, totalFrames := none,
      budgetBehavior := none, showOverlay := none, maxFrames := none,
      maxTimeMs := none, hasOnBudgetExceeded := false, hasDrawFn := true }
    (startLoop (engineInit
      { width := 1950, height := 2400, totalFrames := none,
        budgetBehavior := none, showOverlay := none, maxFrames := none,
        maxTimeMs := none, hasOnBudgetExceeded := false, hasDrawFn := true }
      []))
    ⟨0, false⟩ rfl (by decide) (by decide) rfl
  rw [htick, if_neg (by simp)]
  refine ⟨rfl, ?_, ?_, ?_⟩
  · simp [updateRuntimeTiming]
    rfl
  · simp [engineCompileScope, liveRead, liveProps, engineInit, createPreviewRuntime]
  · simp

/-- C3 amended: in the code-renderer loop every executed draw tick N runs
drawFn against the runtime whose frame counter the controller just set to
N, and the compiled proxy scope resolves frameCount live from that
runtime — the draw of tick N observes exactly N — while any other known
key resolves through the static cache captured at compilation,
independently of the current runtime.  The v0.9.0 PreviewEngine
compileSource instead binds every runtime member by value when the script
is compiled, so the scope a function registered there closes over
resolves frameCount to the frozen compile-time value 0, whatever the loop
sets afterwards. -/
theorem C3_live_binding (w h : ℚ) (statics : List (String × JSVal))
    (total N i : ℕ) (key : String) (cfg : EngineConfig)
    (hi : i < N) (h1 : key ∉ liveProps)
    (h2 : key ≠ "__registerSetup") (h3 : key ≠ "__registerDraw") :
    ((crRun total true (crStart w h statics total)
        (List.replicate N false)).2.getD i defaultCREvents).runtimeAtDraw
      = some (updateRuntimeTiming (crStart w h statics total).runtime (i + 1) total)
    ∧ scopeGet (updateRuntimeTiming (crStart w h statics total).runtime (i + 1) total)
        (buildStaticCache (crStart w h statics total).runtime) "frameCount"
      = JSVal.num ((i + 1 : ℕ) : ℚ)
    ∧ (∀ rt : RuntimeState,
        scopeGet rt (buildStaticCache (crStart w h statics total).runtime) key
          = scopeGet (crStart w h statics total).runtime
              (buildStaticCache (crStart w h statics total).runtime) key)
    ∧ engineCompileScope (engineInit cfg statics).runtime "frameCount"
      = JSVal.num 0
    ∧ (engineInit cfg statics).runtime.frameCount = 0 := by
  refine ⟨?_, ?_, ?_, ?_, ?_⟩
  · have hspec := (crRun_replicate_spec total true N
      (crStart w h statics total) rfl rfl).2.2.2 i hi
    rw [show (crStart w h statics total).frameCount = 0 from rfl] at hspec
    rw [show 0 + i + 1 = i + 1 by omega] at hspec
    exact hspec
  · rw [scopeGet_frameCount]
    rw [updateRuntimeTiming_frameCount]
  · intro rt
    exact scopeGet_nonlive rt (crStart w h statics total).runtime _ key h1 h2 h3
  · simp [engineCompileScope, liveRead, liveProps, engineInit, createPreviewRuntime]
  · rfl

/-- Witness for C3 amended at tick 50 of a 1950x2400 loop: the
code-renderer draw observes 50, the non-live key width resolves
identically under any runtime, and the PreviewEngine compile-time scope
resolves frameCount to the frozen 0. -/
theorem C3_live_binding_witness :
    (49 < 50 ∧ "width" ∉ liveProps)
    ∧ ((crRun 120 true (crStart 1950 2400 [] 120)
        (List.replicate 50 false)).2.getD 49 defaultCREvents).runtimeAtDraw
      = some (updateRuntimeTiming (crStart 1950 2400 [] 120).runtime 50 120)
    ∧ scopeGet (updateRuntimeTiming (crStart 1950 2400 [] 120).runtime 50 120)
        (buildStaticCache (crStart 1950 2400 [] 120).runtime) "frameCount"
      = JSVal.num 50
    ∧ scopeGet (createPreviewRuntime 1 1 [])
        (buildStaticCache (crStart 1950 2400 [] 120).runtime) "width"
      = scopeGet (crStart 1950 2400 [] 120).runtime
          (buildStaticCache (crStart 1950 2400 [] 120).runtime) "width"
    ∧ engineCompileScope
        (engineInit
          { width := 1950, height := 2400, totalFrames := none,
            budgetBehavior := none, showOverlay := none, maxFrames := none,
            maxTimeMs := none, hasOnBudgetExceeded := false, hasDrawFn := true }
          []).runtime "frameCount"
      = JSVal.num 0 := by
  have h := C3_live_binding 1950 2400 [] 120 50 49 "width"
    { width := 1950, height := 2400, totalFrames := none,
      budgetBehavior := none, showOverlay := none, maxFrames := none,
      maxTimeMs := none, hasOnBudgetExceeded := false, hasDrawFn := true }
    (by omega) (by decide) (by decide) (by decide)
  refine ⟨⟨by omega, by decide⟩, h.1, ?_, h.2.2.1 (createPreviewRuntime 1 1 []),
    h.2.2.2.1⟩
  rw [h.2.1]
  norm_num

end NexArt
